import Mathlib

/-!
Verification development for the Helios Core curve-fitting engine
(backend/tools/solve_iv_curve.py, backend/config.py, backend/models/entities.py,
backend/tools/manage_storage.py, backend/services/diagnostic_service.py).

Shallow embedding conventions:
* numpy float64 arrays are `List ℝ`; numpy scalar float operations are the
  corresponding real operations;
* Python dicts with string keys are association lists `List (String × PyVal)`;
* code that can raise returns `Except String α`, the payload being the
  exception text;
* the stochastic optimizers (scipy differential_evolution / least_squares) are
  taken as parameters: arbitrary but fixed deterministic functions of exactly
  the data the code hands them (cost/residual function, bounds, seed, config).
-/

namespace Helios

/-! ## Enums (backend/models/entities.py) -/

inductive AnalysisMode where
  | EXPLORATION
  | REFERENCE
deriving DecidableEq

inductive ModelType where
  | ONE_DIODE
  | TWO_DIODE
deriving DecidableEq

inductive AnalysisStatus where
  | VALID
  | INVALID
  | PENDING
deriving DecidableEq

inductive MeasurementType where
  | LIGHT
  | DARK
  | SUNS_VOC
deriving DecidableEq

/-- The string value of a ModelType enum member (entities.py: `ONE_DIODE = "OneDiode"`). -/
def ModelType.value : ModelType → String
  | .ONE_DIODE => "OneDiode"
  | .TWO_DIODE => "TwoDiode"

/-! ## Python dict values

Heterogeneous values stored in the configuration dicts of backend/config.py. -/

inductive PyVal where
  | pstr (s : String)
  | pnum (x : ℝ)
  | pint (n : ℤ)
  | ppair (x y : ℝ)
  | pbool (b : Bool)

/-- Python dict update `d[k] = v`: replace the value in place if the key exists,
append otherwise (insertion order preserved, as for a Python dict). -/
def dictSet (d : List (String × PyVal)) (k : String) (v : PyVal) : List (String × PyVal) :=
  match d with
  | [] => [(k, v)]
  | (k0, v0) :: rest => if k0 == k then (k0, v) :: rest else (k0, v0) :: dictSet rest k v

/-! ## Locked configuration (backend/config.py) -/

/-- config.py line 27: `GLOBAL_RNG_SEED = 42`. -/
def GLOBAL_RNG_SEED : ℤ := 42

/-- config.py lines 66-75.  Note the key names: `"strategy"`, `"mutation"`,
`"recombination"`, `"popsize"`, ... with no `de_` prefix. -/
def DIFFERENTIAL_EVOLUTION_CONFIG : List (String × PyVal) :=
  [("strategy", .pstr "best1bin"),
   ("mutation", .ppair 0.5 1.0),
   ("recombination", .pnum 0.7),
   ("popsize", .pint 15),
   ("seed", .pint 42),
   ("updating", .pstr "deferred"),
   ("workers", .pint 1),
   ("polish", .pbool false)]

/-- config.py lines 78-83: `{**DIFFERENTIAL_EVOLUTION_CONFIG, "popsize": 5,
"maxiter": 100, "tol": 0.05}`. -/
def EXPLORATION_DE_CONFIG : List (String × PyVal) :=
  dictSet (dictSet (dictSet DIFFERENTIAL_EVOLUTION_CONFIG "popsize" (.pint 5))
    "maxiter" (.pint 100)) "tol" (.pnum 0.05)

/-- config.py lines 85-91.  Key names are `"method"`, `"xtol"`, `"ftol"`,
`"gtol"`, `"max_nfev"` — again with no `lm_` prefix. -/
def LEVENBERG_MARQUARDT_CONFIG : List (String × PyVal) :=
  [("method", .pstr "lm"),
   ("xtol", .pnum 1e-10),
   ("ftol", .pnum 1e-10),
   ("gtol", .pnum 1e-10),
   ("max_nfev", .pint 10000)]

/-! ## SolverConfig snapshot (entities.py lines 120-131)

A pydantic model; every field except `model_type` has a default. -/

structure SolverConfig where
  model_type : ModelType
  solver_seed : ℤ
  de_strategy : String
  de_mutation : ℝ × ℝ
  de_recombination : ℝ
  de_popsize : ℤ
  lm_xtol : ℝ
  lm_ftol : ℝ
  lm_gtol : ℝ

/-- The pydantic defaults of SolverConfig (entities.py lines 122-130):
`SolverConfig(model_type=mt)` as built in the except-branch of
analyze_measurement. -/
def solverConfigDefault (mt : ModelType) : SolverConfig :=
  { model_type := mt
    solver_seed := 42
    de_strategy := "best1bin"
    de_mutation := (0.5, 1.0)
    de_recombination := 0.7
    de_popsize := 15
    lm_xtol := 1e-10
    lm_ftol := 1e-10
    lm_gtol := 1e-10 }

/-- Apply one keyword argument to a SolverConfig under construction
(the `**{...}` spreads at solve_iv_curve.py lines 199-202 become keyword
arguments of the pydantic constructor). -/
def applySolverKwarg (c : SolverConfig) (kv : String × PyVal) : SolverConfig :=
  match kv with
  | ("de_strategy", .pstr s) => { c with de_strategy := s }
  | ("de_mutation", .ppair a b) => { c with de_mutation := (a, b) }
  | ("de_recombination", .pnum x) => { c with de_recombination := x }
  | ("de_popsize", .pint n) => { c with de_popsize := n }
  | ("lm_xtol", .pnum x) => { c with lm_xtol := x }
  | ("lm_ftol", .pnum x) => { c with lm_ftol := x }
  | ("lm_gtol", .pnum x) => { c with lm_gtol := x }
  | _ => c

/-- solve_iv_curve.py lines 196-203: the snapshot is built from
`model_type`, `solver_seed=GLOBAL_RNG_SEED`, and the two filtered dict spreads
`{k: v for k, v in DIFFERENTIAL_EVOLUTION_CONFIG.items() if k in
["de_strategy", "de_mutation", "de_recombination", "de_popsize"]}` and
`{k: v for k, v in LEVENBERG_MARQUARDT_CONFIG.items() if k in
["lm_xtol", "lm_ftol", "lm_gtol"]}`.  The filters test for `de_`/`lm_`-prefixed
keys which the config dicts do not contain. -/
def buildSolverConfig (mt : ModelType) : SolverConfig :=
  let deKw := DIFFERENTIAL_EVOLUTION_CONFIG.filter
    (fun kv => ["de_strategy", "de_mutation", "de_recombination", "de_popsize"].contains kv.1)
  let lmKw := LEVENBERG_MARQUARDT_CONFIG.filter
    (fun kv => ["lm_xtol", "lm_ftol", "lm_gtol"].contains kv.1)
  ((deKw ++ lmKw).foldl applySolverKwarg
    { solverConfigDefault mt with solver_seed := GLOBAL_RNG_SEED })

/-! ## Local-refiner options (solve_iv_curve.py lines 259-267)

`least_squares(..., **{k.replace("lm_", ""): v for k, v in
LEVENBERG_MARQUARDT_CONFIG.items() if k in ["lm_xtol", "lm_ftol", "lm_gtol",
"lm_max_nfev"]})`.  Options not passed keep the scipy defaults
(xtol = ftol = gtol = 1e-8, max_nfev = None). -/

structure LsqOpts where
  xtol : ℝ
  ftol : ℝ
  gtol : ℝ
  max_nfev : Option ℤ

def scipyDefaultLsqOpts : LsqOpts :=
  { xtol := 1e-8, ftol := 1e-8, gtol := 1e-8, max_nfev := none }

/-- The filtered-and-renamed kwargs dict of solve_iv_curve.py lines 265-266. -/
def lmKwargsForRefiner : List (String × PyVal) :=
  (LEVENBERG_MARQUARDT_CONFIG.filter
    (fun kv => ["lm_xtol", "lm_ftol", "lm_gtol", "lm_max_nfev"].contains kv.1)).map
    (fun kv => (kv.1.replace "lm_" "", kv.2))

def applyLsqKwarg (o : LsqOpts) (kv : String × PyVal) : LsqOpts :=
  match kv with
  | ("xtol", .pnum x) => { o with xtol := x }
  | ("ftol", .pnum x) => { o with ftol := x }
  | ("gtol", .pnum x) => { o with gtol := x }
  | ("max_nfev", .pint n) => { o with max_nfev := some n }
  | _ => o

def lsqOptsFromKwargs (kws : List (String × PyVal)) : LsqOpts :=
  kws.foldl applyLsqKwarg scipyDefaultLsqOpts

/-- The options the local refinement stage actually runs with. -/
def refinerOpts : LsqOpts := lsqOptsFromKwargs lmKwargsForRefiner

/-! ## Mode-dependent optimizer configuration and the locked seed -/

/-- solve_iv_curve.py line 206. -/
def de_config (mode : AnalysisMode) : List (String × PyVal) :=
  if mode = AnalysisMode.EXPLORATION then EXPLORATION_DE_CONFIG
  else DIFFERENTIAL_EVOLUTION_CONFIG

/-- The seed scipy's differential_evolution derives its random state from:
the `"seed"` entry of the config dict when present; only when the seed is
absent (None) would scipy draw fresh OS entropy, modelled here by the
`ambient` argument. -/
def seedFromConfig (cfg : List (String × PyVal)) (ambient : ℕ) : ℕ :=
  match cfg.lookup "seed" with
  | some (.pint s) => s.toNat
  | _ => ambient

/-! ## numpy-style helpers on real lists -/

/-- np.clip(x, lo, hi). -/
noncomputable def npClip (x lo hi : ℝ) : ℝ := max lo (min hi x)

/-- np.sign. -/
noncomputable def np_sign (x : ℝ) : ℝ := if 0 < x then 1 else if x < 0 then -1 else 0

/-- Maximum of a list of nonnegative reals, with 0 for the empty list
(used only where every element is an absolute value). -/
noncomputable def listMax0 (l : List ℝ) : ℝ := l.foldr max 0

/-- np.max of a nonempty array (junk value 0 on []). -/
noncomputable def headMax : List ℝ → ℝ
  | [] => 0
  | x :: xs => xs.foldl max x

/-- np.min of a nonempty array (junk value 0 on []). -/
noncomputable def headMin : List ℝ → ℝ
  | [] => 0
  | x :: xs => xs.foldl min x

/-- np.ptp: peak-to-peak, max - min. -/
noncomputable def ptp (l : List ℝ) : ℝ := headMax l - headMin l

/-- np.mean (with the convention 0/0 = 0 for the empty list). -/
noncomputable def npMean (l : List ℝ) : ℝ := l.sum / l.length

/-- sqrt(mean(x²)): the RMS used for residual_rms (solve_iv_curve.py line 347)
and in analyze_residuals (diagnostic_service.py line 31). -/
noncomputable def rmsOfList (l : List ℝ) : ℝ := Real.sqrt (npMean (l.map (fun x => x ^ 2)))

/-- Insertion step for sorting a real list. -/
noncomputable def insertReal (x : ℝ) : List ℝ → List ℝ
  | [] => [x]
  | y :: ys => if x ≤ y then x :: y :: ys else y :: insertReal x ys

/-- Sort a real list ascending (model of numpy's sort inside np.median). -/
noncomputable def sortReal : List ℝ → List ℝ
  | [] => []
  | x :: xs => insertReal x (sortReal xs)

/-- np.median: middle element of the sorted list, or the average of the two
middle elements for even length. -/
noncomputable def npMedian (l : List ℝ) : ℝ :=
  let s := sortReal l
  if l.length % 2 = 1 then s.getD (l.length / 2) 0
  else ((s.getD (l.length / 2 - 1) 0) + s.getD (l.length / 2) 0) / 2

/-- np.argmin(np.abs(l)): index of the first minimal |element|. -/
noncomputable def argminAbsAux : List ℝ → ℕ → ℕ → ℝ → ℕ
  | [], _, best, _ => best
  | x :: xs, i, best, bv =>
    if |x| < bv then argminAbsAux xs (i + 1) i |x| else argminAbsAux xs (i + 1) best bv

noncomputable def argminAbs : List ℝ → ℕ
  | [] => 0
  | x :: xs => argminAbsAux xs 1 0 |x|

/-! ## Physical constants (solve_iv_curve.py lines 42-45) -/

def K_BOLTZMANN : ℝ := 1.380649e-23

def Q_ELECTRON : ℝ := 1.602176634e-19

/-- Vt = k·T/q for a temperature in Kelvin. -/
noncomputable def vThermal (T_k : ℝ) : ℝ := K_BOLTZMANN * T_k / Q_ELECTRON

/-! ## Diode models (solve_iv_curve.py lines 52-104)

The implicit equations are solved by the damped Newton iteration written in the
source: 50 iterations, exponential argument clipped to [-50, 50], early break
once `np.max(np.abs(I_new - I)) < 1e-12`.  The Python `break` fires *before*
the assignment `I = I_new`, so on early exit the pre-update estimate is
returned; the loop body is mirrored exactly. -/

/-- The implicit function f of the one-diode model at one sample
(solve_iv_curve.py line 70). -/
noncomputable def oneDiodeF (I_ph I_0 n R_s R_sh Vt v i : ℝ) : ℝ :=
  I_ph - I_0 * (Real.exp (npClip ((v + i * R_s) / (n * Vt)) (-50) 50) - 1)
    - (v + i * R_s) / R_sh - i

/-- Its analytic derivative with respect to the current estimate
(solve_iv_curve.py line 71). -/
noncomputable def oneDiodeDf (I_0 n R_s R_sh Vt v i : ℝ) : ℝ :=
  -I_0 * Real.exp (npClip ((v + i * R_s) / (n * Vt)) (-50) 50) * R_s / (n * Vt)
    - R_s / R_sh - 1

/-- One Newton update `I_new = I - f/df`, element-wise over the array. -/
noncomputable def oneDiodeStep (I_ph I_0 n R_s R_sh Vt : ℝ) (V Icur : List ℝ) : List ℝ :=
  List.zipWith (fun v i => i - oneDiodeF I_ph I_0 n R_s R_sh Vt v i
    / oneDiodeDf I_0 n R_s R_sh Vt v i) V Icur

/-- The `for iteration in range(fuel)` loop with early break: if the update
moves every element by less than 1e-12 the pre-update estimate is returned. -/
noncomputable def newtonLoop (step : List ℝ → List ℝ) : ℕ → List ℝ → List ℝ
  | 0, Icur => Icur
  | fuel + 1, Icur =>
    if listMax0 (List.zipWith (fun a b => |a - b|) (step Icur) Icur) < 1e-12 then Icur
    else newtonLoop step fuel (step Icur)

/-- The Newton solution for the one-diode model starting from np.zeros_like(V). -/
noncomputable def oneDiodeNewton (V : List ℝ) (I_ph I_0 n R_s R_sh T_k : ℝ) : List ℝ :=
  newtonLoop (oneDiodeStep I_ph I_0 n R_s R_sh (vThermal T_k) V) 50
    (List.replicate V.length 0)

/-- Closed form of the Newton fixed point for a single sample when R_s = 0:
with no series resistance the implicit equation is explicit and every Newton
update lands exactly on this value (the derivative is -1).  Used to evaluate
the model at concrete inputs. -/
noncomputable def oneDiodeC (I_ph I_0 n R_sh T v : ℝ) : ℝ :=
  I_ph - I_0 * (Real.exp (npClip (v / (n * vThermal T)) (-50) 50) - 1) - v / R_sh

/-- one_diode_equation (solve_iv_curve.py lines 52-76).  On an empty voltage
array the first `np.max(np.abs(I_new - I))` is a zero-size reduction, which
raises ValueError inside iteration 1; modelled by the top-level guard.  For a
nonempty array the function is total and returns the Newton estimate. -/
noncomputable def one_diode_equation (V : List ℝ) (I_ph I_0 n R_s R_sh T_k : ℝ) :
    Except String (List ℝ) :=
  if V.isEmpty then
    Except.error "zero-size array to reduction operation maximum which has no identity"
  else Except.ok (oneDiodeNewton V I_ph I_0 n R_s R_sh T_k)

/-- Implicit function of the two-diode model (solve_iv_curve.py line 98). -/
noncomputable def twoDiodeF (I_ph I_01 n1 I_02 n2 R_s R_sh Vt v i : ℝ) : ℝ :=
  I_ph - I_01 * (Real.exp (npClip ((v + i * R_s) / (n1 * Vt)) (-50) 50) - 1)
    - I_02 * (Real.exp (npClip ((v + i * R_s) / (n2 * Vt)) (-50) 50) - 1)
    - (v + i * R_s) / R_sh - i

/-- Derivative of the two-diode implicit function (solve_iv_curve.py line 99). -/
noncomputable def twoDiodeDf (I_01 n1 I_02 n2 R_s R_sh Vt v i : ℝ) : ℝ :=
  -I_01 * Real.exp (npClip ((v + i * R_s) / (n1 * Vt)) (-50) 50) * R_s / (n1 * Vt)
    - I_02 * Real.exp (npClip ((v + i * R_s) / (n2 * Vt)) (-50) 50) * R_s / (n2 * Vt)
    - R_s / R_sh - 1

noncomputable def twoDiodeStep (I_ph I_01 n1 I_02 n2 R_s R_sh Vt : ℝ)
    (V Icur : List ℝ) : List ℝ :=
  List.zipWith (fun v i => i - twoDiodeF I_ph I_01 n1 I_02 n2 R_s R_sh Vt v i
    / twoDiodeDf I_01 n1 I_02 n2 R_s R_sh Vt v i) V Icur

noncomputable def twoDiodeNewton (V : List ℝ) (I_ph I_01 n1 I_02 n2 R_s R_sh T_k : ℝ) :
    List ℝ :=
  newtonLoop (twoDiodeStep I_ph I_01 n1 I_02 n2 R_s R_sh (vThermal T_k) V) 50
    (List.replicate V.length 0)

/-- two_diode_equation (solve_iv_curve.py lines 79-104), with the same
empty-array behaviour as the one-diode variant. -/
noncomputable def two_diode_equation (V : List ℝ) (I_ph I_01 n1 I_02 n2 R_s R_sh T_k : ℝ) :
    Except String (List ℝ) :=
  if V.isEmpty then
    Except.error "zero-size array to reduction operation maximum which has no identity"
  else Except.ok (twoDiodeNewton V I_ph I_01 n1 I_02 n2 R_s R_sh T_k)

/-! ## Residual and cost functions

solve_iv_curve.py defines `_one_diode_residuals`/`_two_diode_residuals` twice:
once at lines 141-152 with signature `(params, V, I_measured, sm=1.0)` applying
the sign multiplier, and again at lines 354-363 with signature
`(params, V, I_measured, T_k)`.  Python rebinds the module-level name when the
second definition executes at import time, before any call, so every call site
(`_one_diode_cost` line 157 and the lambdas at lines 239-244) resolves to the
lines 354-363 version: the fourth positional argument lands in the `T_k`
parameter.  Both versions are embedded; the `_late` one is the one that runs. -/

/-- Shadowed earlier definition, lines 141-145: residuals *with* the sign
multiplier, model evaluated at the default temperature 298.15 K.  Dead code
after import; kept for comparison. -/
noncomputable def one_diode_residuals_signed (p : List ℝ) (V Im : List ℝ) (sm T_k : ℝ) :
    List ℝ :=
  List.zipWith (fun i m => i - sm * m) Im
    (oneDiodeNewton V (p.getD 0 0) (p.getD 1 0) (p.getD 2 0) (p.getD 3 0) (p.getD 4 0) T_k)

/-- Effective definition, lines 354-357: `I_measured - I_model` with the model
evaluated at the fourth positional argument as a temperature. -/
noncomputable def one_diode_residuals_late (p : List ℝ) (V Im : List ℝ) (T_k : ℝ) :
    List ℝ :=
  List.zipWith (fun i m => i - m) Im
    (oneDiodeNewton V (p.getD 0 0) (p.getD 1 0) (p.getD 2 0) (p.getD 3 0) (p.getD 4 0) T_k)

/-- Effective definition, lines 360-363 (two-diode). -/
noncomputable def two_diode_residuals_late (p : List ℝ) (V Im : List ℝ) (T_k : ℝ) :
    List ℝ :=
  List.zipWith (fun i m => i - m) Im
    (twoDiodeNewton V (p.getD 0 0) (p.getD 1 0) (p.getD 2 0) (p.getD 3 0) (p.getD 4 0)
      (p.getD 5 0) (p.getD 6 0) T_k)

/-- `_one_diode_cost` (lines 155-158): its body's call to
`_one_diode_residuals(params, V, I_measured, sm)` resolves at call time to the
lines 354-357 definition, so `sm` is received as `T_k`. -/
noncomputable def one_diode_cost (p : List ℝ) (V Im : List ℝ) (sm : ℝ) : ℝ :=
  ((one_diode_residuals_late p V Im sm).map (fun r => r ^ 2)).sum

/-- `_two_diode_cost` (lines 161-164), same late binding. -/
noncomputable def two_diode_cost (p : List ℝ) (V Im : List ℝ) (sm : ℝ) : ℝ :=
  ((two_diode_residuals_late p V Im sm).map (fun r => r ^ 2)).sum

/-- `dark_res` (lines 229-233): a genuine nested function whose closure passes
the measurement temperature `tk` and sign multiplier `s` correctly; the
residuals are scaled to microamps. -/
noncomputable def dark_res (p : List ℝ) (v i : List ℝ) (tk s : ℝ) : List ℝ :=
  List.zipWith (fun a b => (a - s * b) * 1e6) i
    (oneDiodeNewton v 0 ((10 : ℝ) ^ (p.getD 0 0)) (p.getD 1 0) (p.getD 2 0) (p.getD 3 0) tk)

/-- The unscaled (ampere) dark residuals, for stating the scaling relation. -/
noncomputable def dark_res_raw (p : List ℝ) (v i : List ℝ) (tk s : ℝ) : List ℝ :=
  List.zipWith (fun a b => a - s * b) i
    (oneDiodeNewton v 0 ((10 : ℝ) ^ (p.getD 0 0)) (p.getD 1 0) (p.getD 2 0) (p.getD 3 0) tk)

/-! ## Parameter bounds (solve_iv_curve.py lines 111-134 and 222-227) -/

def ONE_DIODE_BOUNDS : List (ℝ × ℝ) :=
  [(1e-6, 2.0), (1e-18, 1e-3), (0.5, 5.0), (0.0, 1000.0), (1.0, 1e9)]

def TWO_DIODE_BOUNDS : List (ℝ × ℝ) :=
  [(0.0, 2.0), (1e-18, 1e-3), (0.5, 3.0), (1e-18, 1e-3), (1.0, 7.0), (0.0, 1000.0),
   (1.0, 1e9)]

/-- The dark-curve log10(I_0) bounds built inline at lines 222-227. -/
def DARK_LOG_BOUNDS : List (ℝ × ℝ) :=
  [(-20.0, -2.0), (0.5, 5.0), (0.0, 1000.0), (1.0, 1e9)]

/-- Bounds selection (lines 219-244): dark measurement wins over model type. -/
def solveBounds (mtype : MeasurementType) (model : ModelType) : List (ℝ × ℝ) :=
  if mtype = MeasurementType.DARK then DARK_LOG_BOUNDS
  else if model = ModelType.ONE_DIODE then ONE_DIODE_BOUNDS
  else TWO_DIODE_BOUNDS

/-- The cost function handed to differential_evolution (lines 235, 239, 243);
for the light branches the lambda `lambda p, v, i: _one_diode_cost(p, v, i, sm)`
feeds `sm` down into the `T_k` slot by the late binding described above. -/
noncomputable def solveCostFunc (mtype : MeasurementType) (model : ModelType)
    (T_k sm : ℝ) (V I_fit : List ℝ) : List ℝ → ℝ :=
  if mtype = MeasurementType.DARK then
    fun p => ((dark_res p V I_fit T_k sm).map (fun r => r ^ 2)).sum
  else if model = ModelType.ONE_DIODE then fun p => one_diode_cost p V I_fit sm
  else fun p => two_diode_cost p V I_fit sm

/-- The residual function handed to least_squares (lines 236, 240, 244), with
the same late binding in the light branches. -/
noncomputable def solveResidualFunc (mtype : MeasurementType) (model : ModelType)
    (T_k sm : ℝ) (V I_fit : List ℝ) : List ℝ → List ℝ :=
  if mtype = MeasurementType.DARK then fun p => dark_res p V I_fit T_k sm
  else if model = ModelType.ONE_DIODE then fun p => one_diode_residuals_late p V I_fit sm
  else fun p => two_diode_residuals_late p V I_fit sm

/-! ## SHA-256 (model of hashlib.sha256, FIPS 180-4) over byte lists -/

def mod32 (x : ℕ) : ℕ := x % 4294967296

def rotr (b x : ℕ) : ℕ := mod32 (x / 2 ^ b + x % 2 ^ b * 2 ^ (32 - b))

def shr (b x : ℕ) : ℕ := x / 2 ^ b

def bigSigma0 (x : ℕ) : ℕ := rotr 2 x ^^^ rotr 13 x ^^^ rotr 22 x

def bigSigma1 (x : ℕ) : ℕ := rotr 6 x ^^^ rotr 11 x ^^^ rotr 25 x

def smallSigma0 (x : ℕ) : ℕ := rotr 7 x ^^^ rotr 18 x ^^^ shr 3 x

def smallSigma1 (x : ℕ) : ℕ := rotr 17 x ^^^ rotr 19 x ^^^ shr 10 x

def shaCh (x y z : ℕ) : ℕ := x &&& y ^^^ (x ^^^ 4294967295) &&& z

def shaMaj (x y z : ℕ) : ℕ := x &&& y ^^^ x &&& z ^^^ y &&& z

def shaK : List ℕ :=
  [1116352408, 1899447441, 3049323471, 3921009573, 961987163, 1508970993,
   2453635748, 2870763221, 3624381080, 310598401, 607225278, 1426881987,
   1925078388, 2162078206, 2614888103, 3248222580, 3835390401, 4022224774,
   264347078, 604807628, 770255983, 1249150122, 1555081692, 1996064986,
   2554220882, 2821834349, 2952996808, 3210313671, 3336571891, 3584528711,
   113926993, 338241895, 666307205, 773529912, 1294757372, 1396182291,
   1695183700, 1986661051, 2177026350, 2456956037, 2730485921, 2820302411,
   3259730800, 3345764771, 3516065817, 3600352804, 4094571909, 275423344,
   430227734, 506948616, 659060556, 883997877, 958139571, 1322822218,
   1537002063, 1747873779, 1955562222, 2024104815, 2227730452, 2361852424,
   2428436474, 2756734187, 3204031479, 3329325298]

def shaH0 : List ℕ :=
  [1779033703, 3144134277, 1013904242, 2773480762, 1359893119, 2600822924,
   528734635, 1541459225]

/-- Message padding: byte 128, zeros to 56 mod 64, then the bit length
big-endian. -/
def shaPad (m : List ℕ) : List ℕ :=
  m ++ [128] ++ List.replicate ((119 - m.length % 64) % 64) 0
    ++ [56, 48, 40, 32, 24, 16, 8, 0].map (fun s => 8 * m.length / 2 ^ s % 256)

def bytesToWords : List ℕ → List ℕ
  | a :: b :: c :: d :: rest => (((a * 256 + b) * 256 + c) * 256 + d) :: bytesToWords rest
  | _ => []

/-- Extend the 16 message-schedule words to 64. -/
def shaSchedule : ℕ → List ℕ → List ℕ
  | 0, w => w
  | k + 1, w =>
    shaSchedule k (w ++ [mod32 (smallSigma1 (w.getD (w.length - 2) 0)
      + w.getD (w.length - 7) 0 + smallSigma0 (w.getD (w.length - 15) 0)
      + w.getD (w.length - 16) 0)])

/-- One compression round on the state [a, b, c, d, e, f, g, h]. -/
def shaRound (st : List ℕ) (kw : ℕ × ℕ) : List ℕ :=
  match st with
  | [a, b, c, d, e, f, g, h] =>
    let t1 := mod32 (h + bigSigma1 e + shaCh e f g + kw.1 + kw.2)
    let t2 := mod32 (bigSigma0 a + shaMaj a b c)
    [mod32 (t1 + t2), a, b, c, mod32 (d + t1), e, f, g]
  | l => l

def shaChunk (h : List ℕ) (chunk : List ℕ) : List ℕ :=
  let w := shaSchedule 48 (bytesToWords chunk)
  let st := (shaK.zip w).foldl shaRound h
  List.zipWith (fun x y => mod32 (x + y)) h st

/-- Process the padded message 64 bytes at a time (fuel-bounded recursion;
the fuel is instantiated with the message length, an upper bound on the number
of chunks). -/
def shaProcess (fuel : ℕ) (h : List ℕ) (l : List ℕ) : List ℕ :=
  match fuel with
  | 0 => h
  | f + 1 => if l.isEmpty then h else shaProcess f (shaChunk h (l.take 64)) (l.drop 64)

def hexChars : List Char := "0123456789abcdef".toList

def toHex8 (x : ℕ) : String :=
  String.mk ([28, 24, 20, 16, 12, 8, 4, 0].map (fun s => hexChars.getD (x / 2 ^ s % 16) '0'))

/-- hexdigest of SHA-256 over a byte list. -/
def sha256hex (m : List ℕ) : String :=
  String.join ((shaProcess (shaPad m).length shaH0 (shaPad m)).map toHex8)

def strToBytes (s : String) : List ℕ := s.toUTF8.toList.map UInt8.toNat

/-! ## JSON serialization (model of json.dumps(..., sort_keys=True, default=str))

Only the value shapes that occur in the two model_dump() dicts are needed:
strings, floats, ints, None, and the de_mutation pair (serialized as an
array).  Python's repr of a float is modelled by an arbitrary fixed rendering
function `render : ℝ → String` passed through the pipeline; determinism of the
hash does not depend on which rendering is used. -/

inductive Jv where
  | jstr (s : String)
  | jnum (x : ℝ)
  | jint (n : ℤ)
  | jnull
  | jnumArr (l : List ℝ)

def dumpsJv (render : ℝ → String) : Jv → String
  | .jstr s => "\"" ++ s ++ "\""
  | .jnum x => render x
  | .jint n => toString n
  | .jnull => "null"
  | .jnumArr l => "[" ++ String.intercalate ", " (l.map render) ++ "]"

def insertPair (p : String × Jv) : List (String × Jv) → List (String × Jv)
  | [] => [p]
  | q :: qs => if p.1 < q.1 then p :: q :: qs else q :: insertPair p qs

/-- Sort an association list by key (sort_keys=True). -/
def sortPairs : List (String × Jv) → List (String × Jv)
  | [] => []
  | p :: ps => insertPair p (sortPairs ps)

def dumpObj (render : ℝ → String) (pairs : List (String × Jv)) : String :=
  "\x7b" ++ String.intercalate ", "
    ((sortPairs pairs).map (fun kv => "\"" ++ kv.1 ++ "\": " ++ dumpsJv render kv.2))
    ++ "\x7d"

/-- compute_result_hash (manage_storage.py lines 92-103): SHA-256 of the
sorted-key JSON serialization of `{"parameters": ..., "config": ...}`
("config" sorts before "parameters"). -/
def compute_result_hash (render : ℝ → String)
    (parameters config : List (String × Jv)) : String :=
  sha256hex (strToBytes ("\x7b\"config\": " ++ dumpObj render config
    ++ ", \"parameters\": " ++ dumpObj render parameters ++ "\x7d"))

/-! ## Result entities (entities.py) -/

structure ExtractedParameters where
  j_sc : ℝ
  v_oc : ℝ
  ff : ℝ
  pce : ℝ
  r_s : ℝ
  r_sh : ℝ
  n_ideality : ℝ
  n2_ideality : Option ℝ
  i_ph : Option ℝ
  i_0 : Option ℝ
  n_dark : Option ℝ
  n_light : Option ℝ
  i_0_dark : Option ℝ
  r_sh_dark : Option ℝ
  r_s_dark : Option ℝ
  delta_n : Option ℝ
  residual_rms : Option ℝ

def optJv (o : Option ℝ) : Jv :=
  match o with
  | some x => .jnum x
  | none => .jnull

/-- model_dump() of ExtractedParameters as a JSON dict. -/
def dumpParams (p : ExtractedParameters) : List (String × Jv) :=
  [("j_sc", .jnum p.j_sc), ("v_oc", .jnum p.v_oc), ("ff", .jnum p.ff),
   ("pce", .jnum p.pce), ("r_s", .jnum p.r_s), ("r_sh", .jnum p.r_sh),
   ("n_ideality", .jnum p.n_ideality), ("n2_ideality", optJv p.n2_ideality),
   ("i_ph", optJv p.i_ph), ("i_0", optJv p.i_0), ("n_dark", optJv p.n_dark),
   ("n_light", optJv p.n_light), ("i_0_dark", optJv p.i_0_dark),
   ("r_sh_dark", optJv p.r_sh_dark), ("r_s_dark", optJv p.r_s_dark),
   ("delta_n", optJv p.delta_n), ("residual_rms", optJv p.residual_rms)]

/-- model_dump() of SolverConfig as a JSON dict (the str-Enum model_type
serializes as its string value). -/
def dumpConfig (c : SolverConfig) : List (String × Jv) :=
  [("model_type", .jstr c.model_type.value), ("solver_seed", .jint c.solver_seed),
   ("de_strategy", .jstr c.de_strategy),
   ("de_mutation", .jnumArr [c.de_mutation.1, c.de_mutation.2]),
   ("de_recombination", .jnum c.de_recombination), ("de_popsize", .jint c.de_popsize),
   ("lm_xtol", .jnum c.lm_xtol), ("lm_ftol", .jnum c.lm_ftol),
   ("lm_gtol", .jnum c.lm_gtol)]

/-! ## Input values that may be NaN/Inf -/

/-- A float64 input sample: finite value, NaN, or an infinity. -/
inductive FloatVal where
  | fin (x : ℝ)
  | nan
  | inf

/-- `np.isnan(a) or np.isinf(a)` for one sample. -/
def FloatVal.nonFinite : FloatVal → Bool
  | .fin _ => false
  | _ => true

/-- The real value of a finite sample (junk 0 on the guarded-out cases). -/
def FloatVal.val : FloatVal → ℝ
  | .fin x => x
  | _ => 0

/-! ## Measurement / Analysis entities -/

structure MeasurementMetadata where
  cell_area_cm2 : ℝ
  temperature_c : ℝ
  measurement_type : MeasurementType

/-- Measurement (entities.py lines 101-113); only the fields the analysis
pipeline reads are modelled (id, metadata).  The uuid/path bookkeeping fields
play no role in any claim. -/
structure Measurement where
  id : ℕ
  metadata : MeasurementMetadata

/-- Analysis (entities.py lines 157-173); the uuid/timestamp fields, which are
excluded from the determinism fingerprint, are not modelled. -/
structure Analysis where
  measurement_id : ℕ
  mode : AnalysisMode
  status : AnalysisStatus
  solver_config : SolverConfig
  parameters : Option ExtractedParameters
  result_hash : Option String
  error_message : Option String

/-! ## Voc zero-crossing (solve_iv_curve.py lines 292-303) -/

/-- Index of the first adjacent pair with differing np.sign, i.e. the first
nonzero entry of np.diff(np.sign(I)) (`np.where(...)[0][0]`). -/
noncomputable def firstSignChangeAux : List ℝ → ℕ → Option ℕ
  | a :: b :: rest, i =>
    if np_sign a = np_sign b then firstSignChangeAux (b :: rest) (i + 1) else some i
  | _, _ => none

noncomputable def firstSignChange (l : List ℝ) : Option ℕ := firstSignChangeAux l 0

/-- The returned v_oc: absolute value of the linear interpolation of the first
zero-crossing, falling back to the absolute value of the last voltage sample
when the current never changes sign.  The surrounding try/except cannot fire
for the nonempty equal-length arrays reaching this code. -/
noncomputable def v_oc_calc (V I : List ℝ) : ℝ :=
  match firstSignChange I with
  | some idx =>
    |V.getD idx 0 - I.getD idx 0 * (V.getD (idx + 1) 0 - V.getD idx 0)
      / (I.getD (idx + 1) 0 - I.getD idx 0)|
  | none => |V.getLastD 0|

/-! ## The solver pipeline (solve_iv_curve.py lines 171-351)

The two scipy optimizers are parameters:

* `de cost bounds seed cfg` models `differential_evolution(cost, bounds=bounds,
  args=(V, I_fit), **de_config)`: an arbitrary fixed deterministic function of
  the cost function, the bounds, the seed its random state is built from, and
  the remaining configuration, returning the population-search minimizer
  `result.x` (or raising);
* `lm res x0 lb ub opts` models `least_squares(res, x0=..., bounds=(lb, ub),
  method="trf", **kwargs)`: an arbitrary fixed deterministic function
  returning the refined vector `result.x` (or raising).  `result.fun` is the
  residual function evaluated at `result.x`, per the scipy contract. -/

/-- Type of the global-optimizer model. -/
def DeFun : Type :=
  (List ℝ → ℝ) → List (ℝ × ℝ) → ℕ → List (String × PyVal) → Except String (List ℝ)

/-- Type of the local-refiner model. -/
def LmFun : Type :=
  (List ℝ → List ℝ) → List ℝ → List ℝ → List ℝ → LsqOpts → Except String (List ℝ)

/-- The model parameters unpacked from the refined vector
(solve_iv_curve.py lines 270-282): (I_ph, I_0, n, n2?, R_s, R_sh). -/
noncomputable def unpackParams (mtype : MeasurementType) (model : ModelType)
    (p : List ℝ) : ℝ × ℝ × ℝ × Option ℝ × ℝ × ℝ :=
  if mtype = MeasurementType.DARK then
    (0, (10 : ℝ) ^ (p.getD 0 0), p.getD 1 0, none, p.getD 2 0, p.getD 3 0)
  else if model = ModelType.ONE_DIODE then
    (p.getD 0 0, p.getD 1 0, p.getD 2 0, none, p.getD 3 0, p.getD 4 0)
  else
    (p.getD 0 0, p.getD 1 0, p.getD 2 0, some (p.getD 4 0), p.getD 5 0, p.getD 6 0)

/-- solve_iv_curve with the effective optimizer seed already resolved.
Mirrors lines 184-351 step by step; see the inline comments. -/
noncomputable def solve_with_seed (de : DeFun) (lm : LmFun) (render : ℝ → String)
    (V I : List FloatVal) (cell_area_cm2 temperature_c : ℝ)
    (mode : AnalysisMode) (model_type : ModelType) (measurement_type : MeasurementType)
    (seedEff : ℕ) : Except String (ExtractedParameters × SolverConfig × String) :=
  -- lines 190-193: NaN/Inf → hard failure
  if V.any FloatVal.nonFinite then Except.error "Voltage contains NaN or Inf"
  else if I.any FloatVal.nonFinite then Except.error "Current contains NaN or Inf"
  else
  let Vr := V.map FloatVal.val
  let Ir := I.map FloatVal.val
  let T_k := temperature_c + 273.15
  -- lines 196-203: configuration snapshot
  let solver_config := buildSolverConfig model_type
  -- line 210: `np.max(V)` raises on a zero-size array
  if Vr.isEmpty then
    Except.error "zero-size array to reduction operation maximum which has no identity"
  else
  -- lines 208-217: sign-convention detection
  let vmax := headMax Vr
  let powerCurr := ((Vr.zip Ir).filter
    (fun q => decide (0 < q.1 ∧ q.1 < 0.9 * vmax))).map Prod.snd
  let flip : Bool := !powerCurr.isEmpty && decide (npMedian powerCurr < 0)
  let I_fit := if flip then Ir.map (fun x => -x) else Ir
  let sm : ℝ := if flip then -1 else 1
  -- lines 219-244: bounds / cost / residual selection
  let bounds := solveBounds measurement_type model_type
  let cost_func := solveCostFunc measurement_type model_type T_k sm Vr I_fit
  let residual_func := solveResidualFunc measurement_type model_type T_k sm Vr I_fit
  -- lines 246-251: global stage
  match de cost_func bounds seedEff (de_config mode) with
  | Except.error e => Except.error e
  | Except.ok de_x =>
  -- lines 254-267: local refinement over the same box bounds, with the
  -- (empty) filtered kwargs, i.e. scipy's default options
  match lm residual_func de_x (bounds.map Prod.fst) (bounds.map Prod.snd) refinerOpts with
  | Except.error e => Except.error e
  | Except.ok params =>
    let lm_fun := residual_func params
    let u := unpackParams measurement_type model_type params
    let I_ph := u.1
    let I_0 := u.2.1
    let n := u.2.2.1
    let n2 := u.2.2.2.1
    let R_s := u.2.2.2.2.1
    let R_sh := u.2.2.2.2.2
    -- lines 284-303: derived metrics from the raw curve
    let J := Ir.map (fun i => i / cell_area_cm2 * 1000)
    let v_zero_idx := argminAbs Vr
    let j_sc := |J.getD v_zero_idx 0|
    let v_oc := v_oc_calc Vr Ir
    -- lines 305-318: maximum power point in the power-producing quadrant
    let jsc_sign := if 0 < |Ir.getD v_zero_idx 0| then np_sign (Ir.getD v_zero_idx 0) else 1
    let mpPairs := (Vr.zip Ir).filter
      (fun q => decide (0 ≤ q.1 ∧ q.1 ≤ v_oc * 1.05 ∧ np_sign q.2 = jsc_sign))
    let p_mpp := if !mpPairs.isEmpty then headMax (mpPairs.map (fun q => |q.1 * q.2|))
      else headMax ((Vr.zip Ir).map (fun q => |q.1 * q.2|))
    -- lines 320-330: FF and PCE
    let i_sc_converted := j_sc * cell_area_cm2 / 1000
    let ff := if 0 < v_oc ∧ 0 < i_sc_converted then p_mpp / (v_oc * i_sc_converted) else 0
    let p_in_total_w := 100 * cell_area_cm2 / 1000
    let pce := if 0 < p_in_total_w then p_mpp / p_in_total_w * 100 else 0
    -- lines 332-348: result record
    let isDark := measurement_type = MeasurementType.DARK
    let extracted : ExtractedParameters :=
      { j_sc := j_sc
        v_oc := v_oc
        ff := ff
        pce := pce
        r_s := R_s * cell_area_cm2
        r_sh := R_sh * cell_area_cm2
        n_ideality := n
        n2_ideality := n2
        i_ph := some I_ph
        i_0 := some I_0
        n_dark := if isDark then some n else none
        n_light := none
        i_0_dark := if isDark then some I_0 else none
        r_sh_dark := if isDark then some (R_sh * cell_area_cm2) else none
        r_s_dark := if isDark then some (R_s * cell_area_cm2) else none
        delta_n := none
        residual_rms := some (rmsOfList lm_fun) }
    -- line 350: fingerprint
    let result_hash := compute_result_hash render (dumpParams extracted)
      (dumpConfig solver_config)
    Except.ok (extracted, solver_config, result_hash)

/-- solve_iv_curve (lines 171-351).  The `ambient` argument models the
process entropy a run would consume if the optimizer seed were absent; the
locked configs carry `"seed": 42`, so it is resolved before the pipeline
runs (scipy builds the random state from the seed entry of `**de_config`). -/
noncomputable def solve_iv_curve (de : DeFun) (lm : LmFun) (render : ℝ → String)
    (ambient : ℕ) (V I : List FloatVal) (cell_area_cm2 temperature_c : ℝ)
    (mode : AnalysisMode) (model_type : ModelType)
    (measurement_type : MeasurementType) :
    Except String (ExtractedParameters × SolverConfig × String) :=
  solve_with_seed de lm render V I cell_area_cm2 temperature_c mode model_type
    measurement_type (seedFromConfig (de_config mode) ambient)

/-- analyze_measurement (lines 366-403): one try/except around the solve; the
failure branch records the captured exception text and a default SolverConfig;
create_analysis (manage_storage.py lines 269-296) inserts the record and
returns it unchanged, so it is the identity on the entity. -/
noncomputable def analyze_measurement (de : DeFun) (lm : LmFun) (render : ℝ → String)
    (ambient : ℕ) (measurement : Measurement) (V I : List FloatVal)
    (mode : AnalysisMode) (model_type : ModelType) : Analysis :=
  match solve_iv_curve de lm render ambient V I measurement.metadata.cell_area_cm2
    measurement.metadata.temperature_c mode model_type
    measurement.metadata.measurement_type with
  | Except.ok r =>
    { measurement_id := measurement.id
      mode := mode
      status := AnalysisStatus.VALID
      solver_config := r.2.1
      parameters := some r.1
      result_hash := some r.2.2
      error_message := none }
  | Except.error e =>
    { measurement_id := measurement.id
      mode := mode
      status := AnalysisStatus.INVALID
      solver_config := solverConfigDefault model_type
      parameters := none
      result_hash := none
      error_message := some e }

/-! ## Residual-pattern classification (diagnostic_service.py lines 25-87)

np.polyfit(x, y, d) is library code outside this repository; like the scipy
optimizers it is taken as a parameter: `pfit d x y` is the leading coefficient
of numpy's degree-d least-squares polynomial fit of y against x — an arbitrary
fixed deterministic function of exactly those arguments (numpy computes the
column-scaled minimum-norm lstsq solution, emitting only a RankWarning when
the Vandermonde matrix is rank-deficient, e.g. whenever the sample has fewer
than d+1 distinct abscissas).  The classification statements below hold for
every such oracle, hence in particular for numpy's. -/

/-- One concrete instantiation of the polyfit oracle, recording numpy's
documented behaviour at the single rank-deficient input used by the
counterexample: np.polyfit([2, 2], [0.16, 0], 1) scales the Vandermonde
columns [2, 2] and [1, 1] by their norms √8 and √2, takes the minimum-norm
lstsq solution of the rank-1 system, and unscales, giving the slope
0.16/8 = 0.02 (intercept 0.04).  The degree-2/3 leading coefficients at this
input only ever enter the classification multiplied by the zero voltage
range, so their values are irrelevant and 0 is used. -/
noncomputable def numpyMinNormOracle : ℕ → List ℝ → List ℝ → ℝ :=
  fun d _ _ => if d = 1 then 0.02 else 0

/-- The classification outcome: residual pattern, warning level, message.
r_squared and classification_confidence are also computed by the source but no
claim concerns them. -/
structure ResidualReport where
  pattern : String
  warning : String
  message : String
  rms : ℝ
  slope : ℝ
  quadratic_strength : ℝ
  cubic_strength : ℝ

/-- DiagnosticReport.analyze_residuals (diagnostic_service.py lines 25-87):
residuals = measured - fitted; trend strengths fitted over (voltage, residual)
by the polyfit oracle; classification cascade with thresholds 0.15×RMS
(cubic), 0.1×RMS (quadratic) and 0.05×(residual range / voltage range) with
the `if ptp_voltage > 0 else 1.0` guard on the slope threshold. -/
noncomputable def analyze_residuals (pfit : ℕ → List ℝ → List ℝ → ℝ)
    (voltage measured fitted : List ℝ) : ResidualReport :=
  let residuals := List.zipWith (fun m f => m - f) measured fitted
  let rms := rmsOfList residuals
  let ptp_voltage := if 1 < voltage.length then ptp voltage else 1.0
  let ptp_residuals := if 1 < residuals.length then ptp residuals else 0.0
  let slope := if 1 < voltage.length then pfit 1 voltage residuals else 0
  let quad_strength :=
    if 1 < voltage.length then |pfit 2 voltage residuals| * ptp_voltage ^ 2 else 0
  let cubic_strength :=
    if 1 < voltage.length then |pfit 3 voltage residuals| * ptp_voltage ^ 3 else 0
  if 0.15 * rms < cubic_strength then
    { pattern := "s_shaped", warning := "CRITICAL"
      message := "S-shaped residuals indicate injection/extraction barriers"
      rms := rms, slope := slope, quadratic_strength := quad_strength
      cubic_strength := cubic_strength }
  else if 0.1 * rms < quad_strength then
    { pattern := "systematic_curvature", warning := "HIGH"
      message := "Systematic curvature suggests model mismatch"
      rms := rms, slope := slope, quadratic_strength := quad_strength
      cubic_strength := cubic_strength }
  else if 0.05 * (if 0 < ptp_voltage then ptp_residuals / ptp_voltage else 1.0)
      < |slope| then
    { pattern := "linear_trend", warning := "MEDIUM"
      message := "Linear trend indicates potential series resistance error"
      rms := rms, slope := slope, quadratic_strength := quad_strength
      cubic_strength := cubic_strength }
  else
    { pattern := "random", warning := "LOW"
      message := "Residuals appear random (good fit)"
      rms := rms, slope := slope, quadratic_strength := quad_strength
      cubic_strength := cubic_strength }

/-- Refinement comparison target, following the words of the claim/spec:
classify as s_shaped/CRITICAL when cubic strength > 0.15×RMS, else
systematic_curvature/HIGH when quadratic strength > 0.1×RMS, else
linear_trend/MEDIUM when |slope| > 0.05×(residual range / voltage range),
else random/LOW — with the slope threshold written as the plain quotient. -/
noncomputable def residual_class_spec (pfit : ℕ → List ℝ → List ℝ → ℝ)
    (voltage measured fitted : List ℝ) : String × String :=
  let residuals := List.zipWith (fun m f => m - f) measured fitted
  let rms := rmsOfList residuals
  if 0.15 * rms < |pfit 3 voltage residuals| * ptp voltage ^ 3 then
    ("s_shaped", "CRITICAL")
  else if 0.1 * rms < |pfit 2 voltage residuals| * ptp voltage ^ 2 then
    ("systematic_curvature", "HIGH")
  else if 0.05 * (ptp residuals / ptp voltage) < |pfit 1 voltage residuals| then
    ("linear_trend", "MEDIUM")
  else ("random", "LOW")

/-! # Theorems -/

/-! ## Helper lemmas -/

/-- Both mode configurations carry the locked seed 42, so the ambient process
entropy is never consulted. -/
theorem seedFromConfig_locked (mode : AnalysisMode) (a : ℕ) :
    seedFromConfig (de_config mode) a = 42 := by
  cases mode <;> rfl

/-- Scaling every element of a list scales its RMS (for a nonnegative factor). -/
theorem rms_map_scale (c : ℝ) (hc : 0 ≤ c) (l : List ℝ) :
    rmsOfList (l.map (fun x => x * c)) = c * rmsOfList l := by
  unfold rmsOfList npMean
  have h1 : ((l.map (fun x => x * c)).map (fun x => x ^ 2))
      = l.map (fun x => c ^ 2 * x ^ 2) := by
    rw [List.map_map]
    refine List.map_congr_left (fun x _ => ?_)
    simp [Function.comp, mul_pow]
    ring
  rw [h1, List.length_map]
  have h2 : (l.map (fun x => c ^ 2 * x ^ 2)).sum = c ^ 2 * (l.map (fun x => x ^ 2)).sum := by
    rw [← List.sum_map_mul_left]
  rw [h2, mul_div_assoc, Real.sqrt_mul (sq_nonneg c), Real.sqrt_sq hc, List.length_map]

/-- Early exit: as soon as one update moves every component by less than
1e-12, the loop returns the pre-update estimate. -/
theorem newtonLoop_stop (step : List ℝ → List ℝ) (fuel : ℕ) (Icur : List ℝ)
    (h : listMax0 (List.zipWith (fun a b => |a - b|) (step Icur) Icur) < 1e-12) :
    newtonLoop step (fuel + 1) Icur = Icur := by
  simp only [newtonLoop, if_pos h]

/-- The loop performs at most `fuel` Newton updates: its value is some k-fold
iterate of the step function with k ≤ fuel. -/
theorem newtonLoop_iterate (step : List ℝ → List ℝ) :
    ∀ (fuel : ℕ) (Icur : List ℝ), ∃ k, k ≤ fuel ∧ newtonLoop step fuel Icur = step^[k] Icur := by
  intro fuel
  induction fuel with
  | zero => exact fun Icur => ⟨0, le_refl 0, rfl⟩
  | succ f ih =>
    intro Icur
    by_cases h : listMax0 (List.zipWith (fun a b => |a - b|) (step Icur) Icur) < 1e-12
    · exact ⟨0, Nat.zero_le _, by simp only [newtonLoop, if_pos h]; rfl⟩
    · obtain ⟨k, hk, he⟩ := ih (step Icur)
      refine ⟨k + 1, Nat.succ_le_succ hk, ?_⟩
      simp only [newtonLoop, if_neg h]
      rw [he, Function.iterate_succ_apply]

/-- Iterating a length-preserving step preserves length. -/
theorem iterate_preserves_length (step : List ℝ → List ℝ) (m : ℕ)
    (hstep : ∀ l : List ℝ, l.length = m → (step l).length = m) :
    ∀ (k : ℕ) (Icur : List ℝ), Icur.length = m → (step^[k] Icur).length = m := by
  intro k
  induction k with
  | zero => intro Icur hI; simpa using hI
  | succ j ih =>
    intro Icur hI
    rw [Function.iterate_succ_apply]
    exact ih _ (hstep _ hI)

theorem oneDiodeStep_length (I_ph I_0 n R_s R_sh Vt : ℝ) (V l : List ℝ)
    (h : l.length = V.length) :
    (oneDiodeStep I_ph I_0 n R_s R_sh Vt V l).length = V.length := by
  unfold oneDiodeStep
  rw [List.length_zipWith, h, min_self]

theorem twoDiodeStep_length (I_ph I_01 n1 I_02 n2 R_s R_sh Vt : ℝ) (V l : List ℝ)
    (h : l.length = V.length) :
    (twoDiodeStep I_ph I_01 n1 I_02 n2 R_s R_sh Vt V l).length = V.length := by
  unfold twoDiodeStep
  rw [List.length_zipWith, h, min_self]

theorem vThermal_pos (T : ℝ) (hT : 0 < T) : 0 < vThermal T := by
  unfold vThermal K_BOLTZMANN Q_ELECTRON
  have h1 : (0 : ℝ) < 1.380649e-23 := by norm_num
  have h2 : (0 : ℝ) < 1.602176634e-19 := by norm_num
  exact div_pos (mul_pos h1 hT) h2

/-- The Newton denominator of the one-diode model is strictly negative for
parameters in the fitting box at a positive temperature: no division by zero. -/
theorem oneDiodeDf_neg (I_0 n R_s R_sh Vt v i : ℝ)
    (hI0 : 0 < I_0) (hn : 0 < n) (hRs : 0 ≤ R_s) (hRsh : 0 < R_sh) (hVt : 0 < Vt) :
    oneDiodeDf I_0 n R_s R_sh Vt v i < 0 := by
  unfold oneDiodeDf
  set E := Real.exp (npClip ((v + i * R_s) / (n * Vt)) (-50) 50) with hE
  have hEpos : 0 < E := Real.exp_pos _
  have h1 : 0 ≤ I_0 * E * R_s / (n * Vt) :=
    div_nonneg (mul_nonneg (mul_nonneg hI0.le hEpos.le) hRs) (mul_pos hn hVt).le
  have h2 : 0 ≤ R_s / R_sh := div_nonneg hRs hRsh.le
  have h3 : -I_0 * E * R_s / (n * Vt) = -(I_0 * E * R_s / (n * Vt)) := by ring
  rw [h3]
  linarith

/-- Same for the two-diode model. -/
theorem twoDiodeDf_neg (I_01 n1 I_02 n2 R_s R_sh Vt v i : ℝ)
    (hI1 : 0 < I_01) (hn1 : 0 < n1) (hI2 : 0 < I_02) (hn2 : 0 < n2)
    (hRs : 0 ≤ R_s) (hRsh : 0 < R_sh) (hVt : 0 < Vt) :
    twoDiodeDf I_01 n1 I_02 n2 R_s R_sh Vt v i < 0 := by
  unfold twoDiodeDf
  set E1 := Real.exp (npClip ((v + i * R_s) / (n1 * Vt)) (-50) 50) with hE1
  set E2 := Real.exp (npClip ((v + i * R_s) / (n2 * Vt)) (-50) 50) with hE2
  have hE1pos : 0 < E1 := Real.exp_pos _
  have hE2pos : 0 < E2 := Real.exp_pos _
  have h1 : 0 ≤ I_01 * E1 * R_s / (n1 * Vt) :=
    div_nonneg (mul_nonneg (mul_nonneg hI1.le hE1pos.le) hRs) (mul_pos hn1 hVt).le
  have h2 : 0 ≤ I_02 * E2 * R_s / (n2 * Vt) :=
    div_nonneg (mul_nonneg (mul_nonneg hI2.le hE2pos.le) hRs) (mul_pos hn2 hVt).le
  have h3 : 0 ≤ R_s / R_sh := div_nonneg hRs hRsh.le
  have h4 : -I_01 * E1 * R_s / (n1 * Vt) - I_02 * E2 * R_s / (n2 * Vt) - R_s / R_sh - 1
      = -(I_01 * E1 * R_s / (n1 * Vt)) - I_02 * E2 * R_s / (n2 * Vt) - R_s / R_sh - 1 := by
    ring
  rw [h4]
  linarith

/-- With R_s = 0 the Newton update on a single sample is exact: every step
lands on the closed-form value oneDiodeC (the derivative is exactly -1). -/
theorem oneDiodeStep_rs0 (I_ph I_0 n R_sh Vt v i : ℝ) :
    oneDiodeStep I_ph I_0 n 0 R_sh Vt [v] [i]
      = [I_ph - I_0 * (Real.exp (npClip (v / (n * Vt)) (-50) 50) - 1) - v / R_sh] := by
  unfold oneDiodeStep oneDiodeF oneDiodeDf
  simp only [List.zipWith, mul_zero, add_zero, zero_div, List.cons.injEq, and_true]
  ring

/-- The single-sample R_s = 0 Newton solution: provided the closed-form value
is at least the stopping tolerance in magnitude, the loop takes one real step
to it, detects a zero update on the next step, and returns it. -/
theorem newton_rs0_single (I_ph I_0 n R_sh T v : ℝ)
    (h : 1e-12 ≤ |oneDiodeC I_ph I_0 n R_sh T v|) :
    oneDiodeNewton [v] I_ph I_0 n 0 R_sh T = [oneDiodeC I_ph I_0 n R_sh T v] := by
  have hstep : ∀ i : ℝ, oneDiodeStep I_ph I_0 n 0 R_sh (vThermal T) [v] [i]
      = [oneDiodeC I_ph I_0 n R_sh T v] := by
    intro i
    rw [oneDiodeStep_rs0]
    rfl
  unfold oneDiodeNewton
  show newtonLoop (oneDiodeStep I_ph I_0 n 0 R_sh (vThermal T) [v]) (49 + 1) [0]
    = [oneDiodeC I_ph I_0 n R_sh T v]
  simp only [newtonLoop]
  rw [hstep 0]
  have hd1 : listMax0 (List.zipWith (fun a b => |a - b|)
      [oneDiodeC I_ph I_0 n R_sh T v] [(0 : ℝ)]) = |oneDiodeC I_ph I_0 n R_sh T v| := by
    simp only [List.zipWith, sub_zero, listMax0, List.foldr]
    exact max_eq_left (abs_nonneg _)
  rw [hd1, if_neg (not_lt.mpr h)]
  show newtonLoop (oneDiodeStep I_ph I_0 n 0 R_sh (vThermal T) [v]) (48 + 1)
    [oneDiodeC I_ph I_0 n R_sh T v] = [oneDiodeC I_ph I_0 n R_sh T v]
  simp only [newtonLoop]
  rw [hstep (oneDiodeC I_ph I_0 n R_sh T v)]
  have hd2 : listMax0 (List.zipWith (fun a b => |a - b|)
      [oneDiodeC I_ph I_0 n R_sh T v] [oneDiodeC I_ph I_0 n R_sh T v]) = 0 := by
    simp only [List.zipWith, sub_self, abs_zero, listMax0, List.foldr]
    exact max_self 0
  rw [hd2, if_pos (by norm_num : (0 : ℝ) < 1e-12)]

theorem two_le_exp_one : (2 : ℝ) ≤ Real.exp 1 := by
  have h := Real.add_one_le_exp (1 : ℝ)
  linarith

/-- At the default temperature 298.15 K the exponential argument 1/(n·Vt) of
the concrete sample (v = 1, n = 1) lies strictly inside the clip window. -/
theorem arg298_window : (1 : ℝ) < 1 / (1 * vThermal 298.15)
    ∧ 1 / (1 * vThermal 298.15) < 50 := by
  unfold vThermal K_BOLTZMANN Q_ELECTRON
  norm_num

theorem cB_repr : oneDiodeC 1 (1e-3) 1 1 298.15 1
    = -(1e-3 * (Real.exp (1 / (1 * vThermal 298.15)) - 1)) := by
  unfold oneDiodeC npClip
  rw [min_eq_right arg298_window.2.le, max_eq_right (by linarith [arg298_window.1] : (-50 : ℝ) ≤ 1 / (1 * vThermal 298.15))]
  ring

theorem cB_lt_neg : oneDiodeC 1 (1e-3) 1 1 298.15 1 < -(1e-3) := by
  rw [cB_repr]
  have h2 : Real.exp 1 < Real.exp (1 / (1 * vThermal 298.15)) :=
    Real.exp_lt_exp.mpr arg298_window.1
  have h3 := two_le_exp_one
  linarith

theorem cB_abs : (1e-12 : ℝ) ≤ |oneDiodeC 1 (1e-3) 1 1 298.15 1| := by
  have h := cB_lt_neg
  rw [abs_of_neg (by linarith)]
  linarith

theorem cC_repr : oneDiodeC 1 (1e-3) 1 1 1 1 = -(1e-3 * (Real.exp 50 - 1)) := by
  unfold oneDiodeC npClip
  have ha : (50 : ℝ) ≤ 1 / (1 * vThermal 1) := by
    unfold vThermal K_BOLTZMANN Q_ELECTRON
    norm_num
  rw [min_eq_left ha, max_eq_right (by norm_num : (-50 : ℝ) ≤ 50)]
  ring

theorem cC_lt_neg : oneDiodeC 1 (1e-3) 1 1 1 1 < -(1e-3) := by
  rw [cC_repr]
  have h2 : Real.exp 1 < Real.exp 50 := Real.exp_lt_exp.mpr (by norm_num)
  have h3 := two_le_exp_one
  linarith

theorem cC_abs : (1e-12 : ℝ) ≤ |oneDiodeC 1 (1e-3) 1 1 1 1| := by
  have h := cC_lt_neg
  rw [abs_of_neg (by linarith)]
  linarith

theorem cA_repr : oneDiodeC 1 (1e-3) 1 1 (-1) 1 = -(1e-3 * (Real.exp (-50) - 1)) := by
  unfold oneDiodeC npClip
  have ha : 1 / (1 * vThermal (-1)) ≤ -50 := by
    unfold vThermal K_BOLTZMANN Q_ELECTRON
    norm_num
  rw [min_eq_right (le_trans ha (by norm_num)), max_eq_left ha]
  ring

/-- The model value at temperature -1 K (i.e. with the sign multiplier -1
received as a temperature) lies strictly between 0 and 1e-3. -/
theorem cA_bounds : 0 < oneDiodeC 1 (1e-3) 1 1 (-1) 1
    ∧ oneDiodeC 1 (1e-3) 1 1 (-1) 1 < 1e-3
    ∧ (1e-12 : ℝ) ≤ |oneDiodeC 1 (1e-3) 1 1 (-1) 1| := by
  rw [cA_repr]
  have h1 : Real.exp (-50) < 1 := by
    calc Real.exp (-50) < Real.exp 0 := Real.exp_lt_exp.mpr (by norm_num)
    _ = 1 := Real.exp_zero
  have h2 : Real.exp (-50) ≤ Real.exp (-1) := Real.exp_le_exp.mpr (by norm_num)
  have h3 : Real.exp (-1) ≤ 1 / 2 := by
    rw [Real.exp_neg]
    have := two_le_exp_one
    rw [one_div]
    exact inv_anti₀ (by norm_num) this
  have h4 : 0 < Real.exp (-50) := Real.exp_pos _
  refine ⟨by linarith, by linarith, ?_⟩
  rw [abs_of_pos (by linarith)]
  linarith

theorem rms_singleton (x : ℝ) : rmsOfList [x] = |x| := by
  unfold rmsOfList npMean
  simp [Real.sqrt_sq_eq_abs]

/-! ## C2: the sign multiplier is swallowed by the temperature slot -/

/-- C2 fails on the code: for light one-diode fits the residual and cost
functions handed to both optimization stages resolve, by Python late binding,
to the lines 354-357 `_one_diode_residuals(params, V, I_measured, T_k)`, so
the sign multiplier is passed as a temperature and is never applied to the
model current.  At a concrete in-bounds parameter vector and curve, the
residual the code computes (model at -1 K, no multiplier) differs from the
sign-applied residual of the shadowed lines 141-145 definition, so the fit is
not convention-independent. -/
theorem c2_sign_multiplier_lost :
    (∀ (T_k sm : ℝ) (V I_fit p : List ℝ),
      solveResidualFunc MeasurementType.LIGHT ModelType.ONE_DIODE T_k sm V I_fit p
        = one_diode_residuals_late p V I_fit sm
      ∧ solveCostFunc MeasurementType.LIGHT ModelType.ONE_DIODE T_k sm V I_fit p
        = one_diode_cost p V I_fit sm)
    ∧ one_diode_residuals_late [1, 1e-3, 1, 0, 1] [1] [0] (-1)
      ≠ one_diode_residuals_signed [1, 1e-3, 1, 0, 1] [1] [0] (-1) 298.15 := by
  constructor
  · exact fun T_k sm V I_fit p => ⟨rfl, rfl⟩
  · have hlate : one_diode_residuals_late [1, 1e-3, 1, 0, 1] [1] [0] (-1)
        = [0 - oneDiodeC 1 (1e-3) 1 1 (-1) 1] := by
      unfold one_diode_residuals_late
      rw [show oneDiodeNewton [1] (([1, 1e-3, 1, 0, 1] : List ℝ).getD 0 0)
          (([1, 1e-3, 1, 0, 1] : List ℝ).getD 1 0) (([1, 1e-3, 1, 0, 1] : List ℝ).getD 2 0)
          (([1, 1e-3, 1, 0, 1] : List ℝ).getD 3 0) (([1, 1e-3, 1, 0, 1] : List ℝ).getD 4 0)
          (-1) = oneDiodeNewton [1] 1 (1e-3) 1 0 1 (-1) from rfl]
      rw [newton_rs0_single 1 (1e-3) 1 1 (-1) 1 cA_bounds.2.2]
      rfl
    have hsigned : one_diode_residuals_signed [1, 1e-3, 1, 0, 1] [1] [0] (-1) 298.15
        = [0 - (-1) * oneDiodeC 1 (1e-3) 1 1 298.15 1] := by
      unfold one_diode_residuals_signed
      rw [show oneDiodeNewton [1] (([1, 1e-3, 1, 0, 1] : List ℝ).getD 0 0)
          (([1, 1e-3, 1, 0, 1] : List ℝ).getD 1 0) (([1, 1e-3, 1, 0, 1] : List ℝ).getD 2 0)
          (([1, 1e-3, 1, 0, 1] : List ℝ).getD 3 0) (([1, 1e-3, 1, 0, 1] : List ℝ).getD 4 0)
          298.15 = oneDiodeNewton [1] 1 (1e-3) 1 0 1 298.15 from rfl]
      rw [newton_rs0_single 1 (1e-3) 1 1 298.15 1 cB_abs]
      rfl
    rw [hlate, hsigned]
    intro hcontra
    have heq : (0 : ℝ) - oneDiodeC 1 (1e-3) 1 1 (-1) 1
        = 0 - (-1) * oneDiodeC 1 (1e-3) 1 1 298.15 1 := by
      exact List.head_eq_of_cons_eq hcontra
    have h1 := cA_bounds.1
    have h2 := cA_bounds.2.1
    have h3 := cB_lt_neg
    nlinarith

/-! ## C3: the reported residual RMS is computed at the wrong temperature -/

/-- C3 fails on the code: residual_rms is the RMS of the refiner's final
residual vector, but for light one-diode fits that vector evaluates the diode
model at a temperature equal to the sign multiplier (±1 K), not at the
measurement temperature, because of the shadowed residual function.
Recomputing the residuals with the Diode Equation Evaluator at the actual
temperature (298.15 K here) yields a different RMS at a concrete in-bounds
input, even in the default sign convention sm = 1. -/
theorem c3_rms_wrong_temperature :
    (∀ (T_k sm : ℝ) (V I_fit p : List ℝ),
      rmsOfList (solveResidualFunc MeasurementType.LIGHT ModelType.ONE_DIODE T_k sm V I_fit p)
        = rmsOfList (one_diode_residuals_late p V I_fit sm))
    ∧ rmsOfList (one_diode_residuals_late [1, 1e-3, 1, 0, 1] [1] [0] 1)
      ≠ rmsOfList (one_diode_residuals_signed [1, 1e-3, 1, 0, 1] [1] [0] 1 298.15) := by
  constructor
  · exact fun T_k sm V I_fit p => rfl
  · have hlate : one_diode_residuals_late [1, 1e-3, 1, 0, 1] [1] [0] 1
        = [0 - oneDiodeC 1 (1e-3) 1 1 1 1] := by
      unfold one_diode_residuals_late
      rw [show oneDiodeNewton [1] (([1, 1e-3, 1, 0, 1] : List ℝ).getD 0 0)
          (([1, 1e-3, 1, 0, 1] : List ℝ).getD 1 0) (([1, 1e-3, 1, 0, 1] : List ℝ).getD 2 0)
          (([1, 1e-3, 1, 0, 1] : List ℝ).getD 3 0) (([1, 1e-3, 1, 0, 1] : List ℝ).getD 4 0)
          1 = oneDiodeNewton [1] 1 (1e-3) 1 0 1 1 from rfl]
      rw [newton_rs0_single 1 (1e-3) 1 1 1 1 cC_abs]
      rfl
    have hsigned : one_diode_residuals_signed [1, 1e-3, 1, 0, 1] [1] [0] 1 298.15
        = [0 - 1 * oneDiodeC 1 (1e-3) 1 1 298.15 1] := by
      unfold one_diode_residuals_signed
      rw [show oneDiodeNewton [1] (([1, 1e-3, 1, 0, 1] : List ℝ).getD 0 0)
          (([1, 1e-3, 1, 0, 1] : List ℝ).getD 1 0) (([1, 1e-3, 1, 0, 1] : List ℝ).getD 2 0)
          (([1, 1e-3, 1, 0, 1] : List ℝ).getD 3 0) (([1, 1e-3, 1, 0, 1] : List ℝ).getD 4 0)
          298.15 = oneDiodeNewton [1] 1 (1e-3) 1 0 1 298.15 from rfl]
      rw [newton_rs0_single 1 (1e-3) 1 1 298.15 1 cB_abs]
      rfl
    rw [hlate, hsigned, rms_singleton, rms_singleton]
    have hC := cC_lt_neg
    have hB := cB_lt_neg
    rw [show (0 : ℝ) - oneDiodeC 1 (1e-3) 1 1 1 1 = -(oneDiodeC 1 (1e-3) 1 1 1 1) by ring]
    rw [show (0 : ℝ) - 1 * oneDiodeC 1 (1e-3) 1 1 298.15 1
      = -(oneDiodeC 1 (1e-3) 1 1 298.15 1) by ring]
    rw [abs_neg, abs_neg, abs_of_neg (by linarith), abs_of_neg (by linarith)]
    intro hcontra
    have heq : oneDiodeC 1 (1e-3) 1 1 1 1 = oneDiodeC 1 (1e-3) 1 1 298.15 1 := by
      linarith
    rw [cC_repr, cB_repr] at heq
    have hlt : Real.exp (1 / (1 * vThermal 298.15)) < Real.exp 50 :=
      Real.exp_lt_exp.mpr arg298_window.2
    nlinarith

/-! ## C1: determinism of the fingerprint -/

/-- C1: for every fixed input (voltage array, current array, cell area,
temperature, analysis mode, model type, measurement type) — and any fixed
deterministic optimizer implementations and float rendering — two invocations
of solve_iv_curve return the same fingerprint hex digest, whatever ambient
process entropy each run would otherwise have consumed: the optimizer seed is
resolved from the locked configuration (seed 42), so the hash computed by
compute_result_hash over the sorted-key JSON serialization of
{ExtractedParameters, SolverConfig} is identical across repeated runs. -/
theorem c1_fingerprint_deterministic (de : DeFun) (lm : LmFun) (render : ℝ → String)
    (a₁ a₂ : ℕ) (V I : List FloatVal) (area temp : ℝ) (mode : AnalysisMode)
    (mt : ModelType) (mtype : MeasurementType) :
    (solve_iv_curve de lm render a₁ V I area temp mode mt mtype).map (fun r => r.2.2)
      = (solve_iv_curve de lm render a₂ V I area temp mode mt mtype).map
        (fun r => r.2.2) := by
  unfold solve_iv_curve
  rw [seedFromConfig_locked, seedFromConfig_locked]

/-! ## C4: the local refiner's options -/

/-- C4: the filter `k in ["lm_xtol", "lm_ftol", "lm_gtol", "lm_max_nfev"]`
matches no key of LEVENBERG_MARQUARDT_CONFIG (whose keys are "method", "xtol",
"ftol", "gtol", "max_nfev"), so least_squares receives no tolerance or
max_nfev keyword at all and runs with scipy's defaults (1e-8 tolerances,
unbounded evaluation budget) — contradicting the claim that it is invoked with
the locked 1e-10 tolerances and max_nfev = 10000, even though the locked
config does carry those values. -/
theorem c4_refiner_tolerances_not_applied :
    lmKwargsForRefiner = []
    ∧ refinerOpts = scipyDefaultLsqOpts
    ∧ LEVENBERG_MARQUARDT_CONFIG.lookup "xtol" = some (PyVal.pnum 1e-10)
    ∧ LEVENBERG_MARQUARDT_CONFIG.lookup "max_nfev" = some (PyVal.pint 10000)
    ∧ scipyDefaultLsqOpts.xtol ≠ (1e-10 : ℝ)
    ∧ scipyDefaultLsqOpts.max_nfev = none := by
  refine ⟨rfl, rfl, rfl, rfl, ?_, rfl⟩
  norm_num [scipyDefaultLsqOpts]

/-! ## C7: the configuration snapshot does not reflect the analysis mode -/

/-- C7 fails on the code: the snapshot filters test for `de_`-prefixed keys
which DIFFERENTIAL_EVOLUTION_CONFIG does not contain, so the snapshot is the
pydantic default record for every mode — it has no mode field, and it records
de_popsize = 15 even though an Exploration run actually uses the
EXPLORATION_DE_CONFIG population size 5. -/
theorem c7_snapshot_ignores_mode :
    (∀ mt : ModelType, buildSolverConfig mt = solverConfigDefault mt)
    ∧ EXPLORATION_DE_CONFIG.lookup "popsize" = some (PyVal.pint 5)
    ∧ DIFFERENTIAL_EVOLUTION_CONFIG.lookup "popsize" = some (PyVal.pint 15)
    ∧ (buildSolverConfig ModelType.ONE_DIODE).de_popsize = 15
    ∧ (5 : ℤ) ≠ 15 := by
  refine ⟨fun mt => rfl, rfl, rfl, rfl, ?_⟩
  norm_num

/-! ## C9: the analysis-orchestration error boundary -/

/-- C9: analyze_measurement never propagates a solver exception: on any error
it returns an Analysis with status INVALID, the captured exception text as
error_message, no parameters, no result hash and a default SolverConfig; on
success it returns status VALID with no error message, the extracted
parameters and the fingerprint. -/
theorem c9_analysis_error_boundary (de : DeFun) (lm : LmFun) (render : ℝ → String)
    (ambient : ℕ) (measurement : Measurement) (V I : List FloatVal)
    (mode : AnalysisMode) (mt : ModelType) :
    (∀ e, solve_iv_curve de lm render ambient V I measurement.metadata.cell_area_cm2
        measurement.metadata.temperature_c mode mt
        measurement.metadata.measurement_type = Except.error e →
      analyze_measurement de lm render ambient measurement V I mode mt =
        { measurement_id := measurement.id, mode := mode,
          status := AnalysisStatus.INVALID, solver_config := solverConfigDefault mt,
          parameters := none, result_hash := none, error_message := some e })
    ∧ (∀ r, solve_iv_curve de lm render ambient V I measurement.metadata.cell_area_cm2
        measurement.metadata.temperature_c mode mt
        measurement.metadata.measurement_type = Except.ok r →
      analyze_measurement de lm render ambient measurement V I mode mt =
        { measurement_id := measurement.id, mode := mode,
          status := AnalysisStatus.VALID, solver_config := r.2.1,
          parameters := some r.1, result_hash := some r.2.2,
          error_message := none }) := by
  constructor
  · intro e he
    unfold analyze_measurement
    rw [he]
  · intro r hr
    unfold analyze_measurement
    rw [hr]

/-! ## C5: safety of the diode-equation evaluators -/

/-- C5 as stated is false at one concrete input: on an empty voltage array the
first `np.max(np.abs(I_new - I))` of the Newton loop is a zero-size reduction
and one_diode_equation raises ValueError instead of returning an array. -/
theorem c5_empty_raises :
    one_diode_equation [] 1 (1e-3) 1 0 1 298.15
      = Except.error "zero-size array to reduction operation maximum which has no identity" :=
  rfl

/-- C5 (amended to nonempty voltage arrays and a positive Kelvin temperature):
for every nonempty voltage array and parameters in the fitting box,
one_diode_equation raises no exception and returns a current array of the same
length as the voltage array, which is a k-fold Newton update for some k ≤ 50
(at most 50 steps); the Newton denominator is strictly negative at every
sample and estimate (no division by zero); the clipped exponential argument
always lies in [-50, 50]; and the loop stops early, returning the current
estimate, as soon as the maximum element-wise change falls below 1e-12.  The
same holds for two_diode_equation under its fitting box. -/
theorem c5_newton_safety (V : List ℝ) (I_ph I_0 n R_s R_sh T_k : ℝ)
    (hV : V ≠ []) (hI0 : (1e-18 : ℝ) ≤ I_0) (hn : (0.5 : ℝ) ≤ n)
    (hRs : 0 ≤ R_s) (hRsh : (1 : ℝ) ≤ R_sh) (hT : 0 < T_k) :
    (∃ out, one_diode_equation V I_ph I_0 n R_s R_sh T_k = Except.ok out
      ∧ out.length = V.length
      ∧ ∃ k ≤ 50, out = (oneDiodeStep I_ph I_0 n R_s R_sh (vThermal T_k) V)^[k]
          (List.replicate V.length 0))
    ∧ (∀ v i, oneDiodeDf I_0 n R_s R_sh (vThermal T_k) v i < 0)
    ∧ (∀ x : ℝ, -50 ≤ npClip x (-50) 50 ∧ npClip x (-50) 50 ≤ 50)
    ∧ (∀ (step : List ℝ → List ℝ) (fuel : ℕ) (Icur : List ℝ),
        listMax0 (List.zipWith (fun a b => |a - b|) (step Icur) Icur) < 1e-12 →
        newtonLoop step (fuel + 1) Icur = Icur)
    ∧ (∀ I_01 n1 I_02 n2q : ℝ, (1e-18 : ℝ) ≤ I_01 → (0.5 : ℝ) ≤ n1 →
        (1e-18 : ℝ) ≤ I_02 → (1 : ℝ) ≤ n2q →
        (∃ out2, two_diode_equation V I_ph I_01 n1 I_02 n2q R_s R_sh T_k = Except.ok out2
          ∧ out2.length = V.length
          ∧ ∃ k ≤ 50,
              out2 = (twoDiodeStep I_ph I_01 n1 I_02 n2q R_s R_sh (vThermal T_k) V)^[k]
                (List.replicate V.length 0))
        ∧ ∀ v i, twoDiodeDf I_01 n1 I_02 n2q R_s R_sh (vThermal T_k) v i < 0) := by
  have hVemp : V.isEmpty = false := by
    cases V with
    | nil => exact absurd rfl hV
    | cons a l => rfl
  have hVt := vThermal_pos T_k hT
  have hI0p : 0 < I_0 := lt_of_lt_of_le (by norm_num) hI0
  have hnp : 0 < n := lt_of_lt_of_le (by norm_num) hn
  have hRshp : 0 < R_sh := lt_of_lt_of_le (by norm_num) hRsh
  refine ⟨?_, ?_, ?_, newtonLoop_stop, ?_⟩
  · obtain ⟨k, hk, he⟩ := newtonLoop_iterate
      (oneDiodeStep I_ph I_0 n R_s R_sh (vThermal T_k) V) 50 (List.replicate V.length 0)
    refine ⟨oneDiodeNewton V I_ph I_0 n R_s R_sh T_k, ?_, ?_, k, hk, ?_⟩
    · simp [one_diode_equation, hVemp]
    · unfold oneDiodeNewton
      rw [he]
      exact iterate_preserves_length _ V.length
        (fun l hl => oneDiodeStep_length I_ph I_0 n R_s R_sh (vThermal T_k) V l hl) k _
        (List.length_replicate V.length 0)
    · exact he
  · exact fun v i => oneDiodeDf_neg I_0 n R_s R_sh (vThermal T_k) v i hI0p hnp hRs hRshp hVt
  · intro x
    unfold npClip
    exact ⟨le_max_left _ _, max_le (by norm_num) (min_le_left _ _)⟩
  · intro I_01 n1 I_02 n2q hI1 hn1 hI2 hn2
    have hI1p : 0 < I_01 := lt_of_lt_of_le (by norm_num) hI1
    have hn1p : 0 < n1 := lt_of_lt_of_le (by norm_num) hn1
    have hI2p : 0 < I_02 := lt_of_lt_of_le (by norm_num) hI2
    have hn2p : 0 < n2q := lt_of_lt_of_le (by norm_num) hn2
    constructor
    · obtain ⟨k, hk, he⟩ := newtonLoop_iterate
        (twoDiodeStep I_ph I_01 n1 I_02 n2q R_s R_sh (vThermal T_k) V) 50
        (List.replicate V.length 0)
      refine ⟨twoDiodeNewton V I_ph I_01 n1 I_02 n2q R_s R_sh T_k, ?_, ?_, k, hk, ?_⟩
      · simp [two_diode_equation, hVemp]
      · unfold twoDiodeNewton
        rw [he]
        exact iterate_preserves_length _ V.length
          (fun l hl => twoDiodeStep_length I_ph I_01 n1 I_02 n2q R_s R_sh (vThermal T_k) V l hl)
          k _ (List.length_replicate V.length 0)
      · exact he
    · exact fun v i => twoDiodeDf_neg I_01 n1 I_02 n2q R_s R_sh (vThermal T_k) v i
        hI1p hn1p hI2p hn2p hRs hRshp hVt

/-- Witness for c5_newton_safety at V = [1], parameters (1, 1e-3, 1, 0, 1)
inside ONE_DIODE_BOUNDS, T = 298.15 K. -/
theorem c5_newton_safety_witness :
    (([(1 : ℝ)] : List ℝ) ≠ [] ∧ (1e-18 : ℝ) ≤ 1e-3 ∧ (0.5 : ℝ) ≤ 1 ∧ (0 : ℝ) ≤ 0
      ∧ (1 : ℝ) ≤ 1 ∧ (0 : ℝ) < 298.15)
    ∧ ∃ out, one_diode_equation [1] 1 (1e-3) 1 0 1 298.15 = Except.ok out
        ∧ out.length = 1
        ∧ ∃ k ≤ 50, out = (oneDiodeStep 1 (1e-3) 1 0 1 (vThermal 298.15) [1])^[k]
            (List.replicate 1 0) := by
  refine ⟨⟨by simp, by norm_num, by norm_num, le_refl 0, le_refl 1, by norm_num⟩, ?_⟩
  exact (c5_newton_safety [1] 1 (1e-3) 1 0 1 298.15 (by simp) (by norm_num) (by norm_num)
    (le_refl 0) (le_refl 1) (by norm_num)).1

/-- Witness for c9_analysis_error_boundary: a NaN voltage sample makes
solve_iv_curve raise, and analyze_measurement converts it to a terminal
INVALID analysis carrying the exception text. -/
theorem c9_analysis_error_boundary_witness :
    analyze_measurement (fun _ _ _ _ => Except.ok []) (fun _ _ _ _ _ => Except.ok [])
      (fun _ => "") 0 ⟨0, ⟨1, 25, MeasurementType.LIGHT⟩⟩ [FloatVal.nan] [FloatVal.fin 1]
      AnalysisMode.REFERENCE ModelType.ONE_DIODE =
    { measurement_id := 0, mode := AnalysisMode.REFERENCE,
      status := AnalysisStatus.INVALID,
      solver_config := solverConfigDefault ModelType.ONE_DIODE,
      parameters := none, result_hash := none,
      error_message := some "Voltage contains NaN or Inf" } :=
  (c9_analysis_error_boundary (fun _ _ _ _ => Except.ok []) (fun _ _ _ _ _ => Except.ok [])
    (fun _ => "") 0 ⟨0, ⟨1, 25, MeasurementType.LIGHT⟩⟩ [FloatVal.nan] [FloatVal.fin 1]
    AnalysisMode.REFERENCE ModelType.ONE_DIODE).1 "Voltage contains NaN or Inf" rfl

/-! ## C6: Voc zero-crossing helpers -/

/-- Differing np.sign forces differing values. -/
theorem np_sign_ne_imp {a b : ℝ} (h : np_sign a ≠ np_sign b) : a ≠ b := by
  intro hab
  exact h (by rw [hab])

/-- A found sign change really is one: at the reported index the signs of the
adjacent samples differ. -/
theorem firstSignChangeAux_spec :
    ∀ (l : List ℝ) (i idx : ℕ), firstSignChangeAux l i = some idx →
      ∃ k, idx = i + k ∧ np_sign (l.getD k 0) ≠ np_sign (l.getD (k + 1) 0) := by
  intro l
  induction l with
  | nil => intro i idx h; simp [firstSignChangeAux] at h
  | cons a t ih =>
    cases t with
    | nil => intro i idx h; simp [firstSignChangeAux] at h
    | cons b rest =>
      intro i idx h
      by_cases hs : np_sign a = np_sign b
      · rw [show firstSignChangeAux (a :: b :: rest) i
            = firstSignChangeAux (b :: rest) (i + 1) from by
          simp [firstSignChangeAux, hs]] at h
        obtain ⟨k, hk, hne⟩ := ih (i + 1) idx h
        exact ⟨k + 1, by omega, hne⟩
      · rw [show firstSignChangeAux (a :: b :: rest) i = some i from by
          simp [firstSignChangeAux, hs]] at h
        obtain rfl : i = idx := by simpa using h
        exact ⟨0, by omega, hs⟩

/-- The scan reports no sign change exactly when all adjacent samples share
the same np.sign. -/
theorem firstSignChangeAux_none :
    ∀ (l : List ℝ) (i : ℕ), firstSignChangeAux l i = none ↔
      ∀ j, j + 1 < l.length → np_sign (l.getD (j + 1) 0) = np_sign (l.getD j 0) := by
  intro l
  induction l with
  | nil => intro i; simp [firstSignChangeAux]
  | cons a t ih =>
    cases t with
    | nil => intro i; simp [firstSignChangeAux]
    | cons b rest =>
      intro i
      by_cases hs : np_sign a = np_sign b
      · rw [show firstSignChangeAux (a :: b :: rest) i
            = firstSignChangeAux (b :: rest) (i + 1) from by
          simp [firstSignChangeAux, hs]]
        rw [ih (i + 1)]
        constructor
        · intro H j hj
          match j with
          | 0 => exact hs.symm
          | j' + 1 =>
            have := H j' (by simpa using hj)
            simpa using this
        · intro H j hj
          have := H (j + 1) (by simpa using hj)
          simpa using this
      · rw [show firstSignChangeAux (a :: b :: rest) i = some i from by
          simp [firstSignChangeAux, hs]]
        constructor
        · intro h
          exact absurd h (Option.some_ne_none i)
        · intro H
          have h0 := H 0 (by simp)
          simp only [List.getD_cons_succ, List.getD_cons_zero] at h0
          exact absurd h0.symm hs

/-! ## C6: the Voc fallback and interpolation carry an absolute value -/

/-- C6 as stated is false at one concrete input: for V = [-2, -1] and the
sign-constant current I = [1, 2], the code returns |V[-1]| = 1, not the last
voltage sample -1. -/
theorem c6_voc_fallback_abs :
    v_oc_calc [-2, -1] [1, 2] = 1 ∧ ([(-2 : ℝ), -1] : List ℝ).getLastD 0 = -1
      ∧ (1 : ℝ) ≠ -1 := by
  have hs : firstSignChange [(1 : ℝ), 2] = none := by
    norm_num [firstSignChange, firstSignChangeAux, np_sign]
  refine ⟨?_, by norm_num, by norm_num⟩
  unfold v_oc_calc
  rw [hs]
  norm_num

/-- C6 (amended): the returned v_oc is the *absolute value* of the linear
interpolation of the first zero-crossing of measured current versus voltage,
and when the current never changes sign it is the *absolute value* of the last
voltage sample (no exception in either case).  At a sign change the current
samples differ, so the interpolation never divides by zero, and (for distinct
voltages) the interpolated abscissa is exactly where the chord through the two
samples crosses zero current. -/
theorem c6_voc_amended (V I : List ℝ) :
    (firstSignChange I = none → v_oc_calc V I = |V.getLastD 0|)
    ∧ (∀ idx, firstSignChange I = some idx →
        v_oc_calc V I = |V.getD idx 0 - I.getD idx 0 * (V.getD (idx + 1) 0 - V.getD idx 0)
          / (I.getD (idx + 1) 0 - I.getD idx 0)|
        ∧ I.getD (idx + 1) 0 ≠ I.getD idx 0
        ∧ (V.getD (idx + 1) 0 ≠ V.getD idx 0 →
            I.getD idx 0 + ((V.getD idx 0
                - I.getD idx 0 * (V.getD (idx + 1) 0 - V.getD idx 0)
                  / (I.getD (idx + 1) 0 - I.getD idx 0)) - V.getD idx 0)
              * (I.getD (idx + 1) 0 - I.getD idx 0) / (V.getD (idx + 1) 0 - V.getD idx 0)
              = 0))
    ∧ (firstSignChange I = none ↔
        ∀ j, j + 1 < I.length → np_sign (I.getD (j + 1) 0) = np_sign (I.getD j 0)) := by
  refine ⟨?_, ?_, firstSignChangeAux_none I 0⟩
  · intro h
    unfold v_oc_calc
    rw [h]
  · intro idx h
    obtain ⟨k, hk, hne⟩ := firstSignChangeAux_spec I 0 idx h
    obtain rfl : idx = k := by omega
    have hI : I.getD (idx + 1) 0 ≠ I.getD idx 0 := (np_sign_ne_imp hne).symm
    refine ⟨?_, hI, ?_⟩
    · unfold v_oc_calc
      rw [h]
    · intro hV
      have hI' : I.getD (idx + 1) 0 - I.getD idx 0 ≠ 0 := sub_ne_zero_of_ne hI
      have hV' : V.getD (idx + 1) 0 - V.getD idx 0 ≠ 0 := sub_ne_zero_of_ne hV
      set Vi := V.getD idx 0 with hVi
      set Vj := V.getD (idx + 1) 0 with hVj
      set Ii := I.getD idx 0 with hIi
      set Ij := I.getD (idx + 1) 0 with hIj
      have key : (Vi - Ii * (Vj - Vi) / (Ij - Ii)) - Vi = -Ii * (Vj - Vi) / (Ij - Ii) := by
        ring
      rw [key, div_mul_cancel₀ _ hI', mul_div_cancel_right₀ _ hV']
      ring

/-- Witness for c6_voc_amended at V = [0, 1], I = [1, -1]: the first sign
change is at index 0 and the returned v_oc is the absolute interpolated
crossing, which satisfies the chord-through-zero property. -/
theorem c6_voc_amended_witness :
    firstSignChange [(1 : ℝ), -1] = some 0
    ∧ (v_oc_calc [(0 : ℝ), 1] [(1 : ℝ), -1] = |(0 : ℝ) - 1 * (1 - 0) / (-1 - 1)|
      ∧ ((-1 : ℝ) ≠ 1)
      ∧ ((1 : ℝ) ≠ 0 → (1 : ℝ) + (((0 : ℝ) - 1 * (1 - 0) / (-1 - 1)) - 0) * (-1 - 1) / (1 - 0)
          = 0)) := by
  have hsc : firstSignChange [(1 : ℝ), -1] = some 0 := by
    norm_num [firstSignChange, firstSignChangeAux, np_sign]
  exact ⟨hsc, (c6_voc_amended [(0 : ℝ), 1] [(1 : ℝ), -1]).2.1 0 hsc⟩

/-! ## C8: the residual classification cascade -/

/-- C8 as stated fails at a concrete constant-voltage triple with more than
one point.  np.polyfit on voltage = [2, 2] is rank-deficient; numpy's
column-scaled minimum-norm fit of the residuals [0.16, 0] has slope 0.02
(recorded in numpyMinNormOracle).  The code then classifies via its guarded
fallback threshold 0.05×1.0 and returns random/LOW, while the claim's
threshold 0.05×(residual range / voltage range) divides by the zero voltage
range — read with the total-division convention it is 0.05×0, giving
linear_trend/MEDIUM (read as IEEE infinity instead, the claim diverges from
the code at slope 1.25 for residuals [10, 0]; no reading matches the code on
these inputs). -/
theorem c8_degenerate_mismatch :
    (analyze_residuals numpyMinNormOracle [2, 2] [0.16, 0] [0, 0]).pattern = "random"
    ∧ (analyze_residuals numpyMinNormOracle [2, 2] [0.16, 0] [0, 0]).warning = "LOW"
    ∧ (residual_class_spec numpyMinNormOracle [2, 2] [0.16, 0] [0, 0]).1 = "linear_trend"
    ∧ (residual_class_spec numpyMinNormOracle [2, 2] [0.16, 0] [0, 0]).2 = "MEDIUM"
    ∧ ("random" : String) ≠ "linear_trend" := by
  have hres : List.zipWith (fun m f => m - f) [(0.16 : ℝ), 0] [(0 : ℝ), 0] = [0.16, 0] := by
    norm_num [List.zipWith]
  have hlenv : (1 : ℕ) < ([(2 : ℝ), 2] : List ℝ).length := by norm_num
  have hlenr : (1 : ℕ) < ([(0.16 : ℝ), 0] : List ℝ).length := by norm_num
  have hptpv : ptp [(2 : ℝ), 2] = 0 := by
    simp [ptp, headMax, headMin]
  have hrms : 0 ≤ rmsOfList [(0.16 : ℝ), 0] := Real.sqrt_nonneg _
  have horacle1 : numpyMinNormOracle 1 [(2 : ℝ), 2] [(0.16 : ℝ), 0] = 0.02 := rfl
  have hc1 : ¬(0.15 * rmsOfList [(0.16 : ℝ), 0]
      < |numpyMinNormOracle 3 [(2 : ℝ), 2] [(0.16 : ℝ), 0]| * ptp [(2 : ℝ), 2] ^ 3) := by
    rw [hptpv]
    rw [show |numpyMinNormOracle 3 [(2 : ℝ), 2] [(0.16 : ℝ), 0]| * (0 : ℝ) ^ 3 = 0 from by
      norm_num]
    exact not_lt.mpr (mul_nonneg (by norm_num) hrms)
  have hc2 : ¬(0.1 * rmsOfList [(0.16 : ℝ), 0]
      < |numpyMinNormOracle 2 [(2 : ℝ), 2] [(0.16 : ℝ), 0]| * ptp [(2 : ℝ), 2] ^ 2) := by
    rw [hptpv]
    rw [show |numpyMinNormOracle 2 [(2 : ℝ), 2] [(0.16 : ℝ), 0]| * (0 : ℝ) ^ 2 = 0 from by
      norm_num]
    exact not_lt.mpr (mul_nonneg (by norm_num) hrms)
  have hc3code : ¬(0.05 * (if 0 < ptp [(2 : ℝ), 2] then
      ptp [(0.16 : ℝ), 0] / ptp [(2 : ℝ), 2] else 1.0)
        < |numpyMinNormOracle 1 [(2 : ℝ), 2] [(0.16 : ℝ), 0]|) := by
    rw [if_neg (by rw [hptpv]; exact lt_irrefl 0), horacle1,
      abs_of_pos (by norm_num : (0 : ℝ) < 0.02)]
    norm_num
  have hc3spec : 0.05 * (ptp [(0.16 : ℝ), 0] / ptp [(2 : ℝ), 2])
      < |numpyMinNormOracle 1 [(2 : ℝ), 2] [(0.16 : ℝ), 0]| := by
    rw [hptpv, div_zero, mul_zero, horacle1,
      abs_of_pos (by norm_num : (0 : ℝ) < 0.02)]
    norm_num
  have hcode : (analyze_residuals numpyMinNormOracle [2, 2] [0.16, 0] [0, 0]).pattern
      = "random"
      ∧ (analyze_residuals numpyMinNormOracle [2, 2] [0.16, 0] [0, 0]).warning = "LOW" := by
    simp only [analyze_residuals]
    rw [hres]
    simp only [hlenv, hlenr, if_true]
    rw [if_neg hc1, if_neg hc2, if_neg hc3code]
    exact ⟨rfl, rfl⟩
  have hspec : (residual_class_spec numpyMinNormOracle [2, 2] [0.16, 0] [0, 0]).1
      = "linear_trend"
      ∧ (residual_class_spec numpyMinNormOracle [2, 2] [0.16, 0] [0, 0]).2 = "MEDIUM" := by
    simp only [residual_class_spec]
    rw [hres]
    rw [if_neg hc1, if_neg hc2, if_pos hc3spec]
    exact ⟨rfl, rfl⟩
  exact ⟨hcode.1, hcode.2, hspec.1, hspec.2, by decide⟩

/-- C8 (amended to triples whose voltage range is positive, i.e. with at
least two distinct voltage samples): for every polyfit oracle — numpy's
column-scaled minimum-norm least-squares fit in particular — and every
(voltage, measured, fitted) triple with more than one point and positive
voltage range, the code classifies by exactly the claimed priority order:
s_shaped/CRITICAL when cubic strength > 0.15×RMS, else
systematic_curvature/HIGH when quadratic strength > 0.1×RMS, else
linear_trend/MEDIUM when |slope| > 0.05×(residual range / voltage range),
else random/LOW.  (On a zero voltage range the code substitutes the fallback
threshold 0.05×1.0 for the undefined quotient, and the classification can
differ from the claim's formula — see the counterexample.) -/
theorem c8_residual_classification (pfit : ℕ → List ℝ → List ℝ → ℝ) (v m f : List ℝ)
    (hv : 1 < v.length) (hm : 1 < m.length) (hf : 1 < f.length) (hptp : 0 < ptp v) :
    (analyze_residuals pfit v m f).pattern = (residual_class_spec pfit v m f).1
    ∧ (analyze_residuals pfit v m f).warning = (residual_class_spec pfit v m f).2 := by
  have hrlen : 1 < (List.zipWith (fun m f => m - f) m f).length := by
    rw [List.length_zipWith]
    exact lt_min hm hf
  simp only [analyze_residuals, residual_class_spec, hv, hrlen, if_true]
  rw [if_pos hptp]
  by_cases h1 : 0.15 * rmsOfList (List.zipWith (fun m f => m - f) m f)
      < |pfit 3 v (List.zipWith (fun m f => m - f) m f)| * ptp v ^ 3
  · rw [if_pos h1, if_pos h1]
    exact ⟨rfl, rfl⟩
  · rw [if_neg h1, if_neg h1]
    by_cases h2 : 0.1 * rmsOfList (List.zipWith (fun m f => m - f) m f)
        < |pfit 2 v (List.zipWith (fun m f => m - f) m f)| * ptp v ^ 2
    · rw [if_pos h2, if_pos h2]
      exact ⟨rfl, rfl⟩
    · rw [if_neg h2, if_neg h2]
      by_cases h3 : 0.05 * (ptp (List.zipWith (fun m f => m - f) m f) / ptp v)
          < |pfit 1 v (List.zipWith (fun m f => m - f) m f)|
      · rw [if_pos h3, if_pos h3]
        exact ⟨rfl, rfl⟩
      · rw [if_neg h3, if_neg h3]
        exact ⟨rfl, rfl⟩

/-- Witness for c8_residual_classification at the two-point triple
v = [0, 1] (positive voltage range), measured = [1, 2], fitted = [0, 0],
with the zero polyfit oracle. -/
theorem c8_residual_classification_witness :
    (1 < ([(0 : ℝ), 1] : List ℝ).length ∧ 0 < ptp [(0 : ℝ), 1])
    ∧ (analyze_residuals (fun _ _ _ => 0) [(0 : ℝ), 1] [(1 : ℝ), 2] [(0 : ℝ), 0]).pattern
        = (residual_class_spec (fun _ _ _ => 0) [(0 : ℝ), 1] [(1 : ℝ), 2] [(0 : ℝ), 0]).1
    ∧ (analyze_residuals (fun _ _ _ => 0) [(0 : ℝ), 1] [(1 : ℝ), 2] [(0 : ℝ), 0]).warning
        = (residual_class_spec (fun _ _ _ => 0) [(0 : ℝ), 1] [(1 : ℝ), 2] [(0 : ℝ), 0]).2 := by
  have hptp : 0 < ptp [(0 : ℝ), 1] := by
    simp only [ptp, headMax, headMin, List.foldl]
    rw [max_eq_right (by norm_num : (0 : ℝ) ≤ 1), min_eq_left (by norm_num : (0 : ℝ) ≤ 1)]
    norm_num
  refine ⟨⟨by norm_num, hptp⟩, ?_, ?_⟩
  · exact (c8_residual_classification (fun _ _ _ => 0) [(0 : ℝ), 1] [(1 : ℝ), 2]
      [(0 : ℝ), 0] (by norm_num) (by norm_num) (by norm_num) hptp).1
  · exact (c8_residual_classification (fun _ _ _ => 0) [(0 : ℝ), 1] [(1 : ℝ), 2]
      [(0 : ℝ), 0] (by norm_num) (by norm_num) (by norm_num) hptp).2

/-! ## C10: microampere scaling of the dark-fit residuals -/

/-- C10: for every dark solve both optimization stages consume dark_res, whose
per-point values are the ampere current residuals multiplied by 1e6, and the
RMS of that scaled vector — the reported residual_rms — is exactly 1e6 times
the RMS of the unscaled current residuals. -/
theorem c10_dark_residual_scaling (T_k sm : ℝ) (V I_fit : List ℝ) (p : List ℝ) :
    (∀ model, solveResidualFunc MeasurementType.DARK model T_k sm V I_fit p
      = dark_res p V I_fit T_k sm)
    ∧ (∀ model, solveCostFunc MeasurementType.DARK model T_k sm V I_fit p
      = ((dark_res p V I_fit T_k sm).map (fun r => r ^ 2)).sum)
    ∧ dark_res p V I_fit T_k sm
      = (dark_res_raw p V I_fit T_k sm).map (fun x => x * 1e6)
    ∧ rmsOfList (dark_res p V I_fit T_k sm)
      = 1e6 * rmsOfList (dark_res_raw p V I_fit T_k sm) := by
  have hmap : dark_res p V I_fit T_k sm
      = (dark_res_raw p V I_fit T_k sm).map (fun x => x * 1e6) := by
    unfold dark_res dark_res_raw
    rw [List.map_zipWith]
  refine ⟨fun model => rfl, fun model => rfl, hmap, ?_⟩
  rw [hmap, rms_map_scale (1e6) (by norm_num)]

end Helios
